import Mathlib

/-!
Verification of the GALUR e-commerce catalog (Astro + Supabase).

This file gives a shallow embedding of the parts of the repository that the
checked properties concern: the cart store (src/stores/cart.ts), the
pagination/query layer (src/lib/data/products.ts), the admin API route
handlers (categories, subcategories, products, signed upload URLs) and the
asset move/upload workflow (src/lib/data/admin.ts and the product create and
update handlers).

Modelling conventions:
* The Supabase backing store is an explicit record of row lists plus a flat
  path-to-content map for object storage.  Read queries are modelled as
  reliable list operations; write operations carry an injectable error,
  mirroring the fact that the TS code checks `error` on writes but ignores it
  on the guard reads.
* PostgREST `.single()` yields a row exactly when the filtered result has
  exactly one element, and `null` otherwise; the TS code only ever looks at
  the `data` field of such calls.
* JavaScript `x || d` on numbers (`undefined`/`NaN`/`0` are falsy) is
  modelled by `jsOr` on `Option Int`, and missing/empty strings are both
  collapsed to `""` where the TS code treats them with the same falsy check.
* JavaScript numbers that may be `NaN` or fractional (cart quantities,
  prices) are modelled as `Option ℚ` with `none` standing for `NaN`.
-/

set_option autoImplicit false

namespace GALUR

/-- A JSON value, used for request and response bodies exactly as the
handlers build them with `JSON.stringify`. -/
inductive Json where
  | str (s : String)
  | num (q : ℚ)
  | bool (b : Bool)
  | null
  | arr (xs : List Json)
  | obj (fields : List (String × Json))
deriving Repr

/-- An HTTP response as produced by every route handler:
`new Response(JSON.stringify(body), { status })`. -/
structure Response where
  status : Nat
  body : Json
deriving Repr

/-- JavaScript `v || d` for a number that may be absent (`undefined`) or `0`
(both falsy). -/
def jsOr (v : Option Int) (d : Int) : Int :=
  match v with
  | none => d
  | some x => if x == 0 then d else x

/-- PostgREST `.single()`: the returned `data` is the row when the query
matched exactly one row, and `null` otherwise (zero or several matches make
`.single()` report an error, which the handlers ignore, leaving `data`
`null`). -/
def singleRow {α : Type} (l : List α) : Option α :=
  match l with
  | [x] => some x
  | _ => none

/-- ASCII lower-casing of one character, as `String.prototype.toLowerCase`
acts on the ASCII range (the only range these handlers feed it). -/
def jsCharToLower (c : Char) : Char :=
  if 'A' ≤ c ∧ c ≤ 'Z' then Char.ofNat (c.toNat + 32) else c

/-- `s.toLowerCase()`. -/
def jsToLower (s : String) : String := String.mk (s.data.map jsCharToLower)

def isJsWhitespace (c : Char) : Bool :=
  c == ' ' || c == '\t' || c == '\n' || c == '\r'

/-- `s.trim()`: strip whitespace from both ends. -/
def jsTrim (s : String) : String :=
  String.mk (((s.data.dropWhile isJsWhitespace).reverse.dropWhile isJsWhitespace).reverse)

-- ============================
-- Cart store (src/stores/cart.ts)
-- ============================

def MIN_QUANTITY : ℚ := 1
def MAX_QUANTITY : ℚ := 99
def DEFAULT_QUANTITY : ℚ := 1

/-- `clampQuantity` from src/stores/cart.ts lines 15-19.  The JS number
argument is `Option ℚ`, with `none` standing for `NaN`. -/
def clampQuantity (value : Option ℚ) : ℚ :=
  match value with
  | none => MIN_QUANTITY
  | some v =>
    if v < MIN_QUANTITY then MIN_QUANTITY
    else if v > MAX_QUANTITY then MAX_QUANTITY
    else (⌊v⌋ : ℚ)

/-- A cart item as persisted by the store (src/lib/data/types.ts,
`CartItem`). -/
structure CartItem where
  id : Int
  name : String
  slug : String
  brand : Option String
  description : Option String
  quantity : ℚ
  image_url : Option String

/-- `CartItemData = Omit(CartItem, "quantity")`. -/
structure CartItemData where
  id : Int
  name : String
  slug : String
  brand : Option String
  description : Option String
  image_url : Option String

def CartItemData.withQuantity (p : CartItemData) (q : ℚ) : CartItem :=
  { id := p.id, name := p.name, slug := p.slug, brand := p.brand,
    description := p.description, quantity := q, image_url := p.image_url }

/-- The persistent cart map, keyed by `product.id.toString()`. -/
def Cart : Type := String → Option CartItem

def Cart.setKey (cart : Cart) (key : String) (v : Option CartItem) : Cart :=
  fun k => if k = key then v else cart k

/-- `addToCart` (cart.ts lines 40-64).  `quantity` defaults to
`DEFAULT_QUANTITY` at call sites; a `none` argument models `NaN`. -/
def addToCart (cart : Cart) (product : CartItemData) (quantity : Option ℚ) : Cart :=
  let productId := toString product.id
  let quantityToAdd := clampQuantity quantity
  match cart productId with
  | some item =>
    cart.setKey productId
      (some { item with quantity := clampQuantity (some (item.quantity + quantityToAdd)) })
  | none =>
    cart.setKey productId (some (product.withQuantity quantityToAdd))

/-- `increaseQuantity` (cart.ts lines 66-75). -/
def increaseQuantity (cart : Cart) (productId : String) : Cart :=
  match cart productId with
  | some item =>
    cart.setKey productId (some { item with quantity := clampQuantity (some (item.quantity + 1)) })
  | none => cart

/-- `decreaseQuantity` (cart.ts lines 77-88): only decrements when the stored
quantity is strictly above `MIN_QUANTITY`, without re-clamping. -/
def decreaseQuantity (cart : Cart) (productId : String) : Cart :=
  match cart productId with
  | some item =>
    if item.quantity > MIN_QUANTITY then
      cart.setKey productId (some { item with quantity := item.quantity - 1 })
    else cart
  | none => cart

/-- `setQuantity` (cart.ts lines 90-99). -/
def setQuantity (cart : Cart) (productId : String) (quantity : Option ℚ) : Cart :=
  match cart productId with
  | some item =>
    cart.setKey productId (some { item with quantity := clampQuantity quantity })
  | none => cart

/-- `removeFromCart` (cart.ts lines 101-103): `setKey(productId, undefined)`
deletes the entry. -/
def removeFromCart (cart : Cart) (productId : String) : Cart :=
  cart.setKey productId none

/-- `clearCart` (cart.ts lines 105-107). -/
def clearCart (_cart : Cart) : Cart := fun _ => none

/-- A stored quantity is sound: an integer between `MIN_QUANTITY` and
`MAX_QUANTITY`. -/
def quantityOK (q : ℚ) : Prop :=
  (∃ n : ℤ, q = (n : ℚ)) ∧ MIN_QUANTITY ≤ q ∧ q ≤ MAX_QUANTITY

/-- Every item stored in the cart has a sound quantity. -/
def cartInvariant (cart : Cart) : Prop :=
  ∀ k item, cart k = some item → quantityOK item.quantity

def emptyCart : Cart := fun _ => none

-- ============================
-- Data model rows and the backing store
-- ============================

structure Category where
  id : Nat
  name : String
  slug : String
  image_url : Option String
deriving Repr, DecidableEq

structure Subcategory where
  id : Nat
  category_id : Nat
  name : String
  slug : String
  display_order : Int
deriving Repr, DecidableEq

structure ProductRow where
  id : Nat
  name : String
  slug : String
  description : Option String
  price : Option ℚ
  stock : Int
  brand : Option String
  category_id : Nat
  subcategory_id : Nat
  attributes : List (String × String)
deriving Repr, DecidableEq

structure AssetRow where
  id : Nat
  product_id : Nat
  kind : String
  sect : String
  storage_bucket : String
  storage_path : String
  title : Option String
  alt : Option String
  is_primary : Bool
  is_secondary : Bool
  sort_order : Int
  filename : String
  mime_type : String
  file_size_bytes : Nat
  is_public : Bool
deriving Repr, DecidableEq

/-- The backing store: the four relational tables plus the `products` object
storage bucket, a flat map from path to file content (contents are opaque
`Nat` handles). -/
structure Db where
  categories : List Category
  subcategories : List Subcategory
  products : List ProductRow
  product_assets : List AssetRow
  storage : List (String × Nat)
deriving Repr, DecidableEq

def storageLookup (files : List (String × Nat)) (path : String) : Option Nat :=
  (files.find? (fun e => e.1 == path)).map (fun e => e.2)

def storageRemove (files : List (String × Nat)) (path : String) : List (String × Nat) :=
  files.filter (fun e => e.1 != path)

/-- `upload` with `upsert: true`: replaces any file already at the path. -/
def storageUpsert (files : List (String × Nat)) (path : String) (data : Nat) :
    List (String × Nat) :=
  storageRemove files path ++ [(path, data)]

-- ============================
-- Pagination (src/lib/data/products.ts)
-- ============================

def MAX_PAGE_SIZE : Int := 50
def DEFAULT_PAGE_SIZE : Int := 2

structure Pagination where
  page : Int
  pageSize : Int
deriving Repr, DecidableEq

/-- `Partial(Pagination)`: either field may be absent. -/
structure PaginationInput where
  page : Option Int
  pageSize : Option Int
deriving Repr, DecidableEq

/-- `normalizePagination` (products.ts lines 20-30). -/
def normalizePagination (pagination : PaginationInput) : Pagination :=
  let page := jsOr pagination.page 1
  let pageSize := jsOr pagination.pageSize DEFAULT_PAGE_SIZE
  let page := if page < 1 then 1 else page
  let pageSize := if pageSize < 1 then DEFAULT_PAGE_SIZE else pageSize
  let pageSize := if pageSize > MAX_PAGE_SIZE then MAX_PAGE_SIZE else pageSize
  { page := page, pageSize := pageSize }

/-- `Math.ceil(total / pageSize)` for natural `total` and positive `pageSize`. -/
def ceilDiv (total pageSize : Nat) : Nat :=
  (total + pageSize - 1) / pageSize

structure PaginatedProducts where
  items : List ProductRow
  page : Int
  pageSize : Int
  total : Nat
  totalPages : Nat
deriving Repr, DecidableEq

/-- The rows of `products` matching a category, after `applyFilters`.  The
price/stock/attribute filters, which `getProductsByCategory` applies
identically to its count query and its page query, are abstracted as the row
predicate `filt`; row order stands for the store's sort order. -/
def rowsByCategory (db : Db) (categoryId : Nat) (filt : ProductRow → Bool) :
    List ProductRow :=
  (db.products.filter (fun r => r.category_id == categoryId)).filter filt

def rowsBySubcategory (db : Db) (subcategoryId : Nat) (filt : ProductRow → Bool) :
    List ProductRow :=
  (db.products.filter (fun r => r.subcategory_id == subcategoryId)).filter filt

/-- `total > 0 ? Math.ceil(total / pageSize) : 0`. -/
def pagTotalPages (total : Nat) (pageSize : Int) : Nat :=
  if total > 0 then ceilDiv total pageSize.toNat else 0

/-- Shared tail of `getProductsByCategory` / `getProductsBySubcategory`
(products.ts lines 126-179 and 224-277): count, totalPages, the out-of-range
early return, and the `range(offset, offset + pageSize - 1)` page query,
which can fail (`fetchFails`) making the function throw. -/
def paginateRows (matching : List ProductRow) (fetchFails : Bool)
    (pagination : PaginationInput) : Except String PaginatedProducts :=
  let normalized := normalizePagination pagination
  let total := matching.length
  let totalPages := pagTotalPages total normalized.pageSize
  if normalized.page > (totalPages : Int) ∧ totalPages > 0 then
    Except.ok { items := [], page := normalized.page, pageSize := normalized.pageSize,
                total := total, totalPages := totalPages }
  else
    let offset := ((normalized.page - 1) * normalized.pageSize).toNat
    if fetchFails then Except.error "Failed to fetch products"
    else
      Except.ok { items := (matching.drop offset).take normalized.pageSize.toNat,
                  page := normalized.page, pageSize := normalized.pageSize,
                  total := total, totalPages := totalPages }

/-- `getProductsByCategory` (products.ts lines 120-179). -/
def getProductsByCategory (db : Db) (categoryId : Nat) (filt : ProductRow → Bool)
    (fetchFails : Bool) (pagination : PaginationInput) : Except String PaginatedProducts :=
  paginateRows (rowsByCategory db categoryId filt) fetchFails pagination

/-- `getProductsBySubcategory` (products.ts lines 218-277). -/
def getProductsBySubcategory (db : Db) (subcategoryId : Nat) (filt : ProductRow → Bool)
    (fetchFails : Bool) (pagination : PaginationInput) : Except String PaginatedProducts :=
  paginateRows (rowsBySubcategory db subcategoryId filt) fetchFails pagination

-- ============================
-- JSON helpers shared by the handlers
-- ============================

def jsonErr (status : Nat) (message : String) : Response :=
  { status := status, body := Json.obj [("success", Json.bool false), ("error", Json.str message)] }

def optStrJson (s : Option String) : Json :=
  match s with
  | none => Json.null
  | some v => Json.str v

def categoryToJson (c : Category) : Json :=
  Json.obj [("id", Json.num (c.id : ℚ)), ("name", Json.str c.name),
            ("slug", Json.str c.slug), ("image_url", optStrJson c.image_url)]

def productToJson (p : ProductRow) : Json :=
  Json.obj [("id", Json.num (p.id : ℚ)), ("name", Json.str p.name),
            ("slug", Json.str p.slug), ("description", optStrJson p.description),
            ("price", match p.price with | none => Json.null | some q => Json.num q),
            ("stock", Json.num (p.stock : ℚ)), ("brand", optStrJson p.brand),
            ("category_id", Json.num (p.category_id : ℚ)),
            ("subcategory_id", Json.num (p.subcategory_id : ℚ)),
            ("attributes", Json.obj (p.attributes.map (fun kv => (kv.1, Json.str kv.2))))]

-- ============================
-- Signed upload URL endpoint (src/pages/api/admin/upload-url.ts)
-- ============================

/-- One character of the class `[a-zA-Z0-9.-]`. -/
def isFilenameChar (c : Char) : Bool :=
  (('a' ≤ c && c ≤ 'z') || ('A' ≤ c && c ≤ 'Z') || ('0' ≤ c && c ≤ '9')
    || c == '.' || c == '-')

/-- `filename.replace(/[^a-zA-Z0-9.-]/g, "_")`. -/
def sanitizedFilename (filename : String) : String :=
  String.mk (filename.data.map (fun c => if isFilenameChar c then c else '_'))

def imageTypes : List String :=
  ["image/jpeg", "image/png", "image/webp", "image/gif"]

def videoTypes : List String := ["video/mp4", "video/webm"]

def documentTypes : List String :=
  ["application/pdf", "application/zip", "application/msword",
   "application/vnd.openxmlformats-officedocument.wordprocessingml.document",
   "application/vnd.ms-excel",
   "application/vnd.openxmlformats-officedocument.spreadsheetml.sheet"]

def validSections : List String := ["gallery", "additional", "download"]

/-- `allowedTypes[section]` from upload-url.ts lines 60-64. -/
def allowedTypes (sect : String) : List String :=
  if sect == "gallery" then imageTypes ++ videoTypes
  else if sect == "additional" then imageTypes ++ videoTypes
  else if sect == "download" then imageTypes ++ videoTypes ++ documentTypes
  else []

/-- The temp storage path built by the endpoint:
`temp/(tempUploadId)/(section)/(timestamp)-(sanitized filename)`. -/
def tempStoragePath (tempUploadId sect : String) (timestamp : Nat) (filename : String) :
    String :=
  "temp/" ++ tempUploadId ++ "/" ++ sect ++ "/" ++ toString timestamp ++ "-"
    ++ sanitizedFilename filename

/-- The `POST` handler of upload-url.ts.  `user` is the result of
`auth.getUser`; missing request fields arrive as `""` (the handler applies
the same falsy test to missing and empty strings); `timestamp` is
`Date.now()`; `storageResult` is the outcome of `createSignedUploadUrl`
(`signedUrl` and `token` on success). -/
def uploadUrlPOST (user : Option String)
    (filename contentType sect tempUploadId : String)
    (timestamp : Nat) (storageResult : Except String (String × String)) : Response :=
  if user.isNone then
    { status := 401, body := Json.obj [("error", Json.str "No autorizado")] }
  else if filename == "" || contentType == "" || sect == "" || tempUploadId == "" then
    { status := 400, body := Json.obj [("error", Json.str "Faltan campos requeridos")] }
  else if ¬ (validSections.contains sect) then
    { status := 400, body := Json.obj [("error", Json.str "Sección inválida")] }
  else if ¬ ((allowedTypes sect).contains contentType) then
    { status := 400,
      body := Json.obj [("error",
        Json.str ("Tipo de archivo no permitido para " ++ sect ++ ": " ++ contentType))] }
  else
    let storagePath := tempStoragePath tempUploadId sect timestamp filename
    match storageResult with
    | Except.error _ =>
      { status := 500, body := Json.obj [("error", Json.str "Error al crear URL de subida")] }
    | Except.ok su =>
      { status := 200,
        body := Json.obj [("signedUrl", Json.str su.1), ("token", Json.str su.2),
                          ("path", Json.str storagePath)] }

-- ============================
-- Admin categories endpoints (src/pages/api/admin/categories)
-- ============================

/-- The `GET` handler of categories/index.ts: list all categories; a failing
select throws and the catch answers 500 with the error message. -/
def categoriesGET (fetchResult : Except String (List Category)) : Response :=
  match fetchResult with
  | Except.error e => jsonErr 500 e
  | Except.ok categories =>
    { status := 200,
      body := Json.obj [("success", Json.bool true),
                        ("categories", Json.arr (categories.map categoryToJson))] }

/-- The `POST` handler of categories/index.ts (lines 32-94).  `name`/`slug`
are the request body fields (missing fields arrive as `""`); `freshId` is the
row id the store assigns on insert; `insertError` injects a failing insert,
whose message the catch turns into a 500. -/
def categoriesPOST (db : Db) (user : Option String) (name slug : String)
    (image_url : Option String) (freshId : Nat) (insertError : Option String) :
    Response × Db :=
  if user.isNone then (jsonErr 401 "No autorizado", db)
  else if jsTrim name == "" then (jsonErr 400 "El nombre es requerido", db)
  else
    match singleRow (db.categories.filter (fun c => c.slug == slug)) with
    | some _ => (jsonErr 400 "Ya existe una categoría con ese slug", db)
    | none =>
      match insertError with
      | some e => (jsonErr 500 e, db)
      | none =>
        let category : Category :=
          { id := freshId, name := jsTrim name, slug := jsTrim (jsToLower slug),
            image_url := image_url }
        ({ status := 201,
           body := Json.obj [("success", Json.bool true),
                             ("category", categoryToJson category)] },
         { db with categories := db.categories ++ [category] })

/-- The `DELETE` handler of categories/[id].ts (lines 73-124): refuse when
the category still has a subcategory, otherwise delete.  `deleteError`
injects a failing delete (turned into a 500 by the catch). -/
def categoryDELETE (db : Db) (user : Option String) (id : Nat)
    (deleteError : Option String) : Response × Db :=
  if user.isNone then (jsonErr 401 "No autorizado", db)
  else
    let subcats := (db.subcategories.filter (fun s => s.category_id == id)).take 1
    if subcats.length > 0 then
      (jsonErr 400 "No se puede eliminar: hay subcategorías asociadas", db)
    else
      match deleteError with
      | some e => (jsonErr 500 e, db)
      | none =>
        ({ status := 200, body := Json.obj [("success", Json.bool true)] },
         { db with categories := db.categories.filter (fun c => c.id != id) })

/-- The `DELETE` handler of subcategories/[id].ts (lines 75-126): refuse when
the subcategory still has a product, otherwise delete. -/
def subcategoryDELETE (db : Db) (user : Option String) (id : Nat)
    (deleteError : Option String) : Response × Db :=
  if user.isNone then (jsonErr 401 "No autorizado", db)
  else
    let products := (db.products.filter (fun p => p.subcategory_id == id)).take 1
    if products.length > 0 then
      (jsonErr 400
        "No se puede eliminar: hay productos asociados. Muévelos a otra subcategoría primero.",
       db)
    else
      match deleteError with
      | some e => (jsonErr 500 e, db)
      | none =>
        ({ status := 200, body := Json.obj [("success", Json.bool true)] },
         { db with subcategories := db.subcategories.filter (fun s => s.id != id) })

-- ============================
-- Asset workflow (src/lib/data/admin.ts and the product create/update handlers)
-- ============================

/-- One call against the `products` storage bucket, recorded in the order the
code issues them. -/
inductive StorageOp where
  | move (src dst : String)
  | download (path : String)
  | upload (dst : String) (upsert : Bool)
  | remove (paths : List String)
deriving Repr, DecidableEq

/-- An entry of `uploaded_files` in the product create/update request
bodies. -/
structure UploadedFile where
  storage_path : String
  kind : String
  filename : String
  mime_type : String
  file_size_bytes : Nat
  is_primary : Option Bool
  is_secondary : Option Bool
deriving Repr, DecidableEq

/-- External outcomes of one `moveFileAndCreateAsset` call: `Date.now()`, a
failing `storage.move`, a failing `product_assets` insert, and the row id the
store assigns. -/
structure MoveEnv where
  timestamp : Nat
  moveFails : Bool
  insertError : Option String
  freshId : Nat

/-- The final storage path `(productId)/(section)/(timestamp)-(sanitized)`
built by `moveFileAndCreateAsset` and `uploadProductAsset`. -/
def movedPath (productId : Nat) (sect : String) (timestamp : Nat) (filename : String) :
    String :=
  toString productId ++ "/" ++ sect ++ "/" ++ toString timestamp ++ "-"
    ++ sanitizedFilename filename

/-- `lastAsset?.sort_order || 0` where `lastAsset` is the row of the
product's section with the highest `sort_order` (`order desc, limit 1`). -/
def lastSortOrder (assets : List AssetRow) (productId : Nat) (sect : String) : Int :=
  match (assets.filter (fun a => a.product_id == productId && a.sect == sect)).map
      (fun a => a.sort_order) with
  | [] => 0
  | x :: xs => xs.foldl max x

/-- `update (is_primary: false) eq product_id eq section "gallery"`. -/
def clearPrimary (assets : List AssetRow) (productId : Nat) : List AssetRow :=
  assets.map (fun a =>
    if a.product_id == productId && a.sect == "gallery" then { a with is_primary := false }
    else a)

/-- `update (is_secondary: false) eq product_id eq section "gallery"`. -/
def clearSecondary (assets : List AssetRow) (productId : Nat) : List AssetRow :=
  assets.map (fun a =>
    if a.product_id == productId && a.sect == "gallery" then { a with is_secondary := false }
    else a)

/-- The database half of `moveFileAndCreateAsset` (after the storage move):
next `sort_order`, the conditional clearing of `is_primary` / `is_secondary`
on the product's gallery assets, and the insert of the new `product_assets`
row (part_001 lines 208-259, part_002 lines 129-180). -/
def createAssetRecord (productId : Nat) (productName : String) (file : UploadedFile)
    (sect : String) (isPrimary isSecondary : Bool) (newPath : String) (env : MoveEnv)
    (db : Db) : Except String Unit × Db :=
  let nextSortOrder := lastSortOrder db.product_assets productId sect + 1
  let a1 := if isPrimary then clearPrimary db.product_assets productId else db.product_assets
  let a2 := if isSecondary then clearSecondary a1 productId else a1
  match env.insertError with
  | some e => (Except.error ("Error saving asset: " ++ e), { db with product_assets := a2 })
  | none =>
    let newAsset : AssetRow :=
      { id := env.freshId, product_id := productId, kind := file.kind, sect := sect,
        storage_bucket := "products", storage_path := newPath,
        title := if sect == "download" then some file.filename else none,
        alt := if sect != "download" then some productName else none,
        is_primary := isPrimary, is_secondary := isSecondary,
        sort_order := nextSortOrder, filename := file.filename,
        mime_type := file.mime_type, file_size_bytes := file.file_size_bytes,
        is_public := true }
    (Except.ok (), { db with product_assets := a2 ++ [newAsset] })

/-- `moveFileAndCreateAsset`, defined identically inside the product create
handler (part_002 lines 95-181, with `product.id`/`product.name` in scope)
and the product update handler (part_001 lines 174-260, with `productId` and
the updated product's name in scope); both copies are this function applied
to the surrounding product's id and name.  The third component records the
storage calls issued, in order.  When `storage.move` fails the code falls
back once to download-old, upload-new-with-upsert, remove-old; when that
download yields no data it throws without touching `product_assets`. -/
def moveFileAndCreateAsset (productId : Nat) (productName : String) (file : UploadedFile)
    (sect : String) (isPrimary isSecondary : Bool) (env : MoveEnv) (db : Db) :
    Except String Unit × Db × List StorageOp :=
  let oldPath := file.storage_path
  let newPath := movedPath productId sect env.timestamp file.filename
  if env.moveFails then
    match storageLookup db.storage oldPath with
    | some d =>
      let db1 :=
        { db with storage := storageRemove (storageUpsert db.storage newPath d) oldPath }
      let r := createAssetRecord productId productName file sect isPrimary isSecondary
        newPath env db1
      (r.1, r.2,
       [StorageOp.move oldPath newPath, StorageOp.download oldPath,
        StorageOp.upload newPath true, StorageOp.remove [oldPath]])
    | none =>
      (Except.error ("Failed to move file: " ++ file.filename), db,
       [StorageOp.move oldPath newPath, StorageOp.download oldPath])
  else
    let storage1 :=
      match storageLookup db.storage oldPath with
      | some d => storageUpsert (storageRemove db.storage oldPath) newPath d
      | none => db.storage
    let r := createAssetRecord productId productName file sect isPrimary isSecondary
      newPath env { db with storage := storage1 }
    (r.1, r.2, [StorageOp.move oldPath newPath])

/-- `setAssetAsPrimary` (admin.ts lines 594-629): look the asset up, refuse
non-gallery assets, clear `is_primary` on the product's gallery assets (the
code ignores this update's outcome), then set the chosen asset primary
(`updateError` injects a failure of that last update). -/
def setAssetAsPrimary (assets : List AssetRow) (assetId : Nat)
    (updateError : Option String) : Except String Unit × List AssetRow :=
  match singleRow (assets.filter (fun a => a.id == assetId)) with
  | none => (Except.error "Asset not found", assets)
  | some asset =>
    if asset.sect != "gallery" then
      (Except.error "Only gallery assets can be primary", assets)
    else
      let cleared := clearPrimary assets asset.product_id
      match updateError with
      | some e => (Except.error ("Error setting primary: " ++ e), cleared)
      | none =>
        (Except.ok (),
         cleared.map (fun a => if a.id == assetId then { a with is_primary := true } else a))

/-- `setAssetAsSecondary` (admin.ts lines 634-657). -/
def setAssetAsSecondary (assets : List AssetRow) (assetId : Option Nat) (productId : Nat)
    (updateError : Option String) : Except String Unit × List AssetRow :=
  let cleared := clearSecondary assets productId
  match assetId with
  | some aid =>
    if aid != 0 then
      match updateError with
      | some e => (Except.error ("Error setting secondary: " ++ e), cleared)
      | none =>
        (Except.ok (),
         cleared.map (fun a => if a.id == aid then { a with is_secondary := true } else a))
    else (Except.ok (), cleared)
  | none => (Except.ok (), cleared)

/-- `uploadProductAsset` (admin.ts lines 449-527): upload to storage
(`upsert: false`), clear `is_primary` when the new asset is a primary gallery
asset, compute the next `sort_order`, insert the row, and on a failing insert
remove the uploaded file again. -/
def uploadProductAsset (productId : Nat) (fileName fileType : String) (fileSize : Nat)
    (kind sect : String) (title alt : Option String) (is_primary : Option Bool)
    (fileData : Nat) (timestamp freshId : Nat) (uploadError dbError : Option String)
    (db : Db) : Except String AssetRow × Db :=
  let path := movedPath productId sect timestamp fileName
  match uploadError with
  | some e => (Except.error ("Error uploading file: " ++ e), db)
  | none =>
    let db1 := { db with storage := db.storage ++ [(path, fileData)] }
    let a1 :=
      if is_primary.getD false && sect == "gallery" then
        clearPrimary db1.product_assets productId
      else db1.product_assets
    let nextSortOrder := lastSortOrder a1 productId sect + 1
    match dbError with
    | some e =>
      (Except.error ("Error saving asset: " ++ e),
       { db1 with product_assets := a1, storage := storageRemove db1.storage path })
    | none =>
      let asset : AssetRow :=
        { id := freshId, product_id := productId, kind := kind, sect := sect,
          storage_bucket := "products", storage_path := path, title := title, alt := alt,
          is_primary := is_primary.getD false, is_secondary := false,
          sort_order := nextSortOrder, filename := fileName, mime_type := fileType,
          file_size_bytes := fileSize, is_public := true }
      (Except.ok asset, { db1 with product_assets := a1 ++ [asset] })

/-- At most one of a product's gallery assets carries `is_primary`. -/
def galleryPrimaryCount (assets : List AssetRow) (productId : Nat) : Nat :=
  assets.countP (fun a => a.product_id == productId && a.sect == "gallery" && a.is_primary)

def atMostOnePrimary (assets : List AssetRow) : Prop :=
  ∀ productId, galleryPrimaryCount assets productId ≤ 1

-- ============================
-- Product creation (src/lib/data/admin.ts and the product POST handler)
-- ============================

def isSlugChar (c : Char) : Bool :=
  ('a' ≤ c && c ≤ 'z') || ('0' ≤ c && c ≤ '9')

/-- The NFD-decompose-then-drop-combining-marks step of `generateSlug`, on
the Latin accented letters this catalog uses (any other character is not a
slug character and becomes a hyphen in the next step anyway). -/
def accentFold (c : Char) : Char :=
  if c == 'á' || c == 'à' || c == 'â' || c == 'ã' || c == 'ä' || c == 'å' then 'a'
  else if c == 'é' || c == 'è' || c == 'ê' || c == 'ë' then 'e'
  else if c == 'í' || c == 'ì' || c == 'î' || c == 'ï' then 'i'
  else if c == 'ó' || c == 'ò' || c == 'ô' || c == 'õ' || c == 'ö' then 'o'
  else if c == 'ú' || c == 'ù' || c == 'û' || c == 'ü' then 'u'
  else if c == 'ñ' then 'n'
  else if c == 'ç' then 'c'
  else c

/-- Collapse each run of hyphens to a single hyphen (the `+` of
`replace(/[^a-z0-9]+/g, "-")`). -/
def squashDashes : List Char → List Char
  | [] => []
  | [c] => [c]
  | c :: d :: rest =>
    if c == '-' && d == '-' then squashDashes (d :: rest)
    else c :: squashDashes (d :: rest)

/-- `generateSlug` (admin.ts lines 666-674): lower-case, strip accents,
replace runs of non-slug characters with one hyphen, trim hyphens, cap at
100 characters. -/
def generateSlug (name : String) : String :=
  let folded := (jsToLower name).data.map accentFold
  let dashed := folded.map (fun c => if isSlugChar c then c else '-')
  let collapsed := squashDashes dashed
  let trimmed :=
    ((collapsed.dropWhile (fun c => c == '-')).reverse.dropWhile (fun c => c == '-')).reverse
  String.mk (trimmed.take 100)

/-- The (full) `ProductFormData` the product POST handler builds. -/
structure ProductForm where
  name : String
  slug : String
  description : Option String
  price : Option ℚ
  stock : Int
  brand : Option String
  category_id : Nat
  subcategory_id : Nat
  attributes : List (String × String)
deriving Repr, DecidableEq

def slugPatternOk (s : String) : Bool :=
  s.length > 0 && s.data.all (fun c => isSlugChar c || c == '-')

/-- `validateProductData` (admin.ts lines 679-717), for the full form the
product POST handler passes. -/
def validateProductData (data : ProductForm) : List String :=
  (if jsTrim data.name == "" then ["El nombre es requerido"]
   else if data.name.length > 200 then ["El nombre no puede exceder 200 caracteres"]
   else [])
  ++ (if jsTrim data.slug == "" then ["El slug es requerido"]
      else if ¬ slugPatternOk data.slug then
        ["El slug solo puede contener letras minúsculas, números y guiones"]
      else [])
  ++ (match data.price with
      | some p => if p < 0 then ["El precio no puede ser negativo"] else []
      | none => [])
  ++ (if data.stock < 0 then ["El stock no puede ser negativo"] else [])
  ++ (if data.category_id == 0 then ["La categoría es requerida"] else [])
  ++ (if data.subcategory_id == 0 then ["La subcategoría es requerida"] else [])

structure CreateEnv where
  insertError : Option String
  freshId : Nat

/-- `createProduct` (admin.ts lines 315-351): throw when the slug lookup
(`.single()`) finds a product, otherwise insert. -/
def createProduct (db : Db) (data : ProductForm) (env : CreateEnv) :
    Except String (ProductRow × Db) :=
  match singleRow (db.products.filter (fun p => p.slug == data.slug)) with
  | some _ => Except.error "Ya existe un producto con ese slug"
  | none =>
    match env.insertError with
    | some e => Except.error ("Error creating product: " ++ e)
    | none =>
      let row : ProductRow :=
        { id := env.freshId, name := jsTrim data.name,
          slug := jsTrim (jsToLower data.slug),
          description := (match data.description with
            | none => none
            | some d => if jsTrim d == "" then none else some (jsTrim d)),
          price := data.price, stock := data.stock,
          brand := (match data.brand with
            | none => none
            | some b => if jsTrim b == "" then none else some (jsTrim b)),
          category_id := data.category_id, subcategory_id := data.subcategory_id,
          attributes := data.attributes }
      Except.ok (row, { db with products := db.products ++ [row] })

/-- The product POST request body (part_002 lines 20-36); missing string
fields arrive as `""`, the falsy value the handler tests for. -/
structure PostBody where
  name : String
  slug : String
  description : String
  brand : String
  price : Option ℚ
  stock : Option Int
  category_id : Nat
  subcategory_id : Nat
  attributes : List (String × String)
  temp_upload_id : String
  gallery : List UploadedFile
  additional : List UploadedFile
  download : List UploadedFile

/-- The `productData` object the POST handler builds (part_002 lines
71-81). -/
def mkProductData (body : PostBody) : ProductForm :=
  { name := body.name,
    slug := if body.slug == "" then generateSlug body.name else body.slug,
    description := if body.description == "" then none else some body.description,
    price := body.price,
    stock := jsOr body.stock 0,
    brand := if body.brand == "" then none else some body.brand,
    category_id := body.category_id, subcategory_id := body.subcategory_id,
    attributes := body.attributes }

/-- External outcomes for one product POST: product insert failure, the ids
the store assigns, `Date.now()`, and per-file (keyed by the file's temp
`storage_path`) storage-move and asset-insert failures. -/
structure PostEnv where
  insertProductError : Option String
  freshProductId : Nat
  timestamp : Nat
  moveFailsFor : String → Bool
  insertAssetErrorFor : String → Option String
  baseAssetId : Nat

/-- One `for (const file of uploaded_files.(section))` loop of the POST
handler: each `moveFileAndCreateAsset` call sits in its own try/catch whose
handler only logs, so a failing file leaves the state as the throw left it
and the loop continues (part_002 lines 183-213). -/
def processSection (productId : Nat) (productName : String) (files : List UploadedFile)
    (sect : String) (useFlags : Bool) (env : PostEnv) (start : Db × Nat) : Db × Nat :=
  files.foldl (fun acc file =>
    let ip := useFlags && file.is_primary.getD false
    let isec := useFlags && file.is_secondary.getD false
    let menv : MoveEnv :=
      { timestamp := env.timestamp, moveFails := env.moveFailsFor file.storage_path,
        insertError := env.insertAssetErrorFor file.storage_path, freshId := acc.2 }
    ((moveFileAndCreateAsset productId productName file sect ip isec menv acc.1).2.1,
     acc.2 + 1))
    start

/-- The temp-folder cleanup (part_002 lines 216-227), modelled as removing
every stored file under `temp/(temp_upload_id)/`; its own try/catch ignores
all errors. -/
def tempCleanup (db : Db) (tempUploadId : String) : Db :=
  { db with storage :=
      db.storage.filter (fun e => ¬ (("temp/" ++ tempUploadId ++ "/").data.isPrefixOf e.1.data)) }

/-- The `POST` handler of the product create endpoint (part_002 lines
38-242).  A throw from `createProduct` reaches the handler's catch, which
answers 500 with the error's message; throws inside the per-file loops are
swallowed by the inner catches. -/
def productPOST (db : Db) (user : Option String) (body : PostBody) (env : PostEnv) :
    Response × Db :=
  if user.isNone then (jsonErr 401 "No autorizado", db)
  else
    let productData := mkProductData body
    let errors := validateProductData productData
    if errors.length > 0 then (jsonErr 400 (String.intercalate ", " errors), db)
    else
      match createProduct db productData
          { insertError := env.insertProductError, freshId := env.freshProductId } with
      | Except.error msg => (jsonErr 500 msg, db)
      | Except.ok pr =>
        let product := pr.1
        let s1 := processSection product.id product.name body.gallery "gallery" true env
          (pr.2, env.baseAssetId)
        let s2 := processSection product.id product.name body.additional "additional" false
          env s1
        let s3 := processSection product.id product.name body.download "download" false
          env s2
        let cleaned := tempCleanup s3.1 body.temp_upload_id
        ({ status := 201,
           body := Json.obj [("success", Json.bool true), ("product", productToJson product)] },
         cleaned)

-- ============================
-- Public products API (part_005) and its data helpers
-- ============================

/-- `getCategoryAndSubcategories` (src/lib/data/categories.ts lines 44-74);
subcategory ordering (display_order, name) is kept as stored row order, which
no checked property depends on. -/
def getCategoryAndSubcategories (db : Db) (categorySlug : String) :
    Option (Category × List Subcategory) :=
  match singleRow (db.categories.filter (fun c => c.slug == categorySlug)) with
  | none => none
  | some c => some (c, db.subcategories.filter (fun s => s.category_id == c.id))

/-- `storage.getPublicUrl`; the platform base URL is dropped. -/
def publicUrl (bucket path : String) : String := bucket ++ "/" ++ path

/-- `is_primary desc, sort_order asc`. -/
def assetOrder (a b : AssetRow) : Bool :=
  if a.is_primary != b.is_primary then a.is_primary
  else decide (a.sort_order ≤ b.sort_order)

def productFields (p : ProductRow) : List (String × Json) :=
  [("id", Json.num (p.id : ℚ)), ("name", Json.str p.name), ("slug", Json.str p.slug),
   ("description", optStrJson p.description),
   ("price", match p.price with | none => Json.null | some q => Json.num q),
   ("stock", Json.num (p.stock : ℚ)), ("brand", optStrJson p.brand),
   ("category_id", Json.num (p.category_id : ℚ)),
   ("subcategory_id", Json.num (p.subcategory_id : ℚ)),
   ("attributes", Json.obj (p.attributes.map (fun kv => (kv.1, Json.str kv.2))))]

/-- `enrichProductsWithImages` (products.ts lines 557-609): one query for the
gallery images of all the listed products ordered primary-first, grouped per
product, and the first two URLs spread onto each product. -/
def enrichProductsWithImages (db : Db) (products : List ProductRow) : List Json :=
  let ids := products.map (fun p => p.id)
  let assets := List.mergeSort
    (db.product_assets.filter (fun a =>
      ids.contains a.product_id && a.sect == "gallery" && a.kind == "image"))
    assetOrder
  products.map (fun p =>
    let productAssets := assets.filter (fun a => a.product_id == p.id)
    Json.obj (productFields p ++
      [("primaryImageUrl",
        match productAssets.head? with
        | some a => Json.str (publicUrl a.storage_bucket a.storage_path)
        | none => Json.null),
       ("secondaryImageUrl",
        match productAssets[1]? with
        | some a => Json.str (publicUrl a.storage_bucket a.storage_path)
        | none => Json.null)]))

/-- The 200 body of the products API (part_005 lines 190-219); the echoed
`appliedFilters` block is not modelled because the attribute/price filters
are abstracted as the row predicate. -/
def productsApiOkResponse (db : Db) (category : Category) (sub : Option Subcategory)
    (res : PaginatedProducts) : Response :=
  { status := 200,
    body := Json.obj
      [("items", Json.arr (enrichProductsWithImages db res.items)),
       ("page", Json.num (res.page : ℚ)), ("pageSize", Json.num (res.pageSize : ℚ)),
       ("total", Json.num (res.total : ℚ)), ("totalPages", Json.num (res.totalPages : ℚ)),
       ("category", Json.obj [("id", Json.num (category.id : ℚ)),
                              ("name", Json.str category.name),
                              ("slug", Json.str category.slug)]),
       ("subcategory", match sub with
        | none => Json.null
        | some s => Json.obj [("id", Json.num (s.id : ℚ)), ("name", Json.str s.name),
                              ("slug", Json.str s.slug)])] }

/-- The sanitized `page` query parameter (part_005 lines 46-48): absent or
`NaN` or below 1 falls back to 1. -/
def apiPage (pageParam : Option (Option Int)) : Int :=
  match pageParam with
  | none => 1
  | some none => 1
  | some (some v) => if v < 1 then 1 else v

/-- The sanitized `pageSize` query parameter (part_005 lines 51-56): absent,
`NaN` or outside `[1, 50]` falls back to `PAGE_SIZE`. -/
def apiPageSize (pageSizeDefault : Int) (pageSizeParam : Option (Option Int)) : Int :=
  match pageSizeParam with
  | none => pageSizeDefault
  | some none => pageSizeDefault
  | some (some v) => if v < 1 || v > 50 then pageSizeDefault else v

/-- The `GET` handler of the products API (part_005 lines 36-232).
`pageParam`/`pageSizeParam` model the raw query parameter and its
`parseInt` outcome (`some none` = present but `NaN`); `pageSizeDefault` is
`PAGE_SIZE` from `@/config`, a module not present in the sources; the
attribute/price/stock filters and the sort order are abstracted as the row
predicate `filt`; `fetchFails` makes the page query of
`getProductsByCategory` / `getProductsBySubcategory` throw, which the
handler's catch answers with a generic 500. -/
def productsApiGET (db : Db) (pageSizeDefault : Int) (categorySlug : Option String)
    (subcategorySlug : Option String) (pageParam pageSizeParam : Option (Option Int))
    (filt : ProductRow → Bool) (fetchFails : Bool) : Response :=
  let page : Int := apiPage pageParam
  let pageSize : Int := apiPageSize pageSizeDefault pageSizeParam
  let cslug := (categorySlug.getD "")
  if cslug == "" then
    { status := 400, body := Json.obj [("error", Json.str "categorySlug is required")] }
  else
    match getCategoryAndSubcategories db cslug with
    | none => { status := 404, body := Json.obj [("error", Json.str "Category not found")] }
    | some cd =>
      let sslug := (subcategorySlug.getD "")
      if sslug == "" then
        match getProductsByCategory db cd.1.id filt fetchFails
            { page := some page, pageSize := some pageSize } with
        | Except.error _ =>
          { status := 500, body := Json.obj [("error", Json.str "Internal server error")] }
        | Except.ok res => productsApiOkResponse db cd.1 none res
      else
        match cd.2.find? (fun s => s.slug == sslug) with
        | none =>
          { status := 404,
            body := Json.obj
              [("error", Json.str "Subcategory not found or does not belong to this category")] }
        | some sub =>
          match getProductsBySubcategory db sub.id filt fetchFails
              { page := some page, pageSize := some pageSize } with
          | Except.error _ =>
            { status := 500, body := Json.obj [("error", Json.str "Internal server error")] }
          | Except.ok res => productsApiOkResponse db cd.1 (some sub) res

-- ============================
-- Dashboard statistics queries (admin.ts getDashboardStats, lines 51-145)
-- ============================

/-- The tables as the dashboard queries see them: rows serialized to JSON. -/
def TableState : Type := String → List Json

/-- One PostgREST action.  Writes are part of the language so that being a
read is a property, not a typing artifact. -/
inductive QAct where
  | countRows
  | selectRows (limit : Option Nat)
  | insertRow (row : Json)
  | updateRows (f : Json → Json)
  | deleteRows

def QAct.isWrite : QAct → Bool
  | countRows => false
  | selectRows _ => false
  | insertRow _ => true
  | updateRows _ => true
  | deleteRows => true

structure Query where
  table : String
  act : QAct

inductive QueryResult where
  | count (n : Nat)
  | rows (rs : List Json)

def evalQuery (q : Query) (s : TableState) : QueryResult × TableState :=
  match q.act with
  | QAct.countRows => (QueryResult.count (s q.table).length, s)
  | QAct.selectRows lim =>
    (QueryResult.rows (match lim with | none => s q.table | some n => (s q.table).take n), s)
  | QAct.insertRow r => (QueryResult.rows [], fun t => if t = q.table then s t ++ [r] else s t)
  | QAct.updateRows f => (QueryResult.rows [], fun t => if t = q.table then (s t).map f else s t)
  | QAct.deleteRows => (QueryResult.rows [], fun t => if t = q.table then [] else s t)

/-- The six queries `getDashboardStats` launches in one `Promise.all`
(admin.ts lines 55-86), in order: four `count: exact, head: true` counts, the
five most recent products, and the per-category product listing.  Selected
column lists and orderings are dropped; they do not bear on the read/write
classification. -/
def getDashboardStatsQueries : List Query :=
  [{ table := "products", act := QAct.countRows },
   { table := "categories", act := QAct.countRows },
   { table := "subcategories", act := QAct.countRows },
   { table := "product_assets", act := QAct.countRows },
   { table := "products", act := QAct.selectRows (some 5) },
   { table := "products", act := QAct.selectRows none }]

/-- `Promise.all`: every query is evaluated against the same initial state. -/
def runParallel (qs : List Query) (s : TableState) : List QueryResult :=
  qs.map (fun q => (evalQuery q s).1)

/-- Sequential evaluation, each query seeing the previous one's state. -/
def runSequential (qs : List Query) (s : TableState) : List QueryResult × TableState :=
  match qs with
  | [] => ([], s)
  | q :: rest =>
    let r := evalQuery q s
    let tail := runSequential rest r.2
    (r.1 :: tail.1, tail.2)

-- ============================
-- Concrete sample data (used to exercise the theorems at closed inputs)
-- ============================

def sampleProduct (n : Nat) (nm : String) : ProductRow :=
  { id := n, name := nm, slug := nm, description := none, price := none,
    stock := 0, brand := none, category_id := 7, subcategory_id := 1,
    attributes := [] }

def dbThree : Db :=
  { categories := [], subcategories := [],
    products := [sampleProduct 1 "a", sampleProduct 2 "b", sampleProduct 3 "c"],
    product_assets := [], storage := [] }

def resOutOfRange : PaginatedProducts :=
  { items := [], page := 5, pageSize := 2, total := 3, totalPages := 2 }

def sampleSubcategory : Subcategory :=
  { id := 3, category_id := 7, name := "Sub", slug := "sub", display_order := 0 }

def dbGuard : Db :=
  { categories := [{ id := 7, name := "Cat", slug := "cat", image_url := none }],
    subcategories := [sampleSubcategory],
    products := [sampleProduct 1 "a"],
    product_assets := [], storage := [] }

def dbOneCat : Db :=
  { categories := [{ id := 1, name := "Cat", slug := "x", image_url := none }],
    subcategories := [], products := [], product_assets := [], storage := [] }

def oldProduct : ProductRow :=
  { id := 1, name := "Old", slug := "test", description := none, price := none,
    stock := 0, brand := none, category_id := 1, subcategory_id := 1, attributes := [] }

def dbOneProduct : Db :=
  { categories := [], subcategories := [], products := [oldProduct],
    product_assets := [], storage := [] }

def dbEmpty : Db :=
  { categories := [], subcategories := [], products := [], product_assets := [],
    storage := [] }

/-- A gallery upload whose temp file is gone from storage. -/
def fileLost : UploadedFile :=
  { storage_path := "temp/t1/gallery/a.png", kind := "image", filename := "a.png",
    mime_type := "image/png", file_size_bytes := 10, is_primary := some true,
    is_secondary := none }

def bodyWith (files : List UploadedFile) : PostBody :=
  { name := "Test", slug := "test", description := "", brand := "", price := none,
    stock := some 1, category_id := 1, subcategory_id := 1, attributes := [],
    temp_upload_id := "t1", gallery := files, additional := [], download := [] }

def envMoveFail : PostEnv :=
  { insertProductError := none, freshProductId := 1, timestamp := 5,
    moveFailsFor := fun _ => true, insertAssetErrorFor := fun _ => none,
    baseAssetId := 10 }

/-- The state the product create handler reaches after `createProduct`
succeeds on `dbEmpty` with `bodyWith` data. -/
def dbAfterCreate : Db :=
  { categories := [], subcategories := [],
    products := [{ id := 1, name := "Test", slug := "test", description := none,
                   price := none, stock := 1, brand := none, category_id := 1,
                   subcategory_id := 1, attributes := [] }],
    product_assets := [], storage := [] }

def dbWithTempFile : Db :=
  { categories := [], subcategories := [], products := [], product_assets := [],
    storage := [("temp/t1/gallery/a.png", 42)] }

def galleryAsset : AssetRow :=
  { id := 1, product_id := 1, kind := "image", sect := "gallery",
    storage_bucket := "products", storage_path := "1/gallery/5-a.png", title := none,
    alt := some "Test", is_primary := true, is_secondary := false, sort_order := 1,
    filename := "a.png", mime_type := "image/png", file_size_bytes := 10,
    is_public := true }

def downloadAsset : AssetRow :=
  { id := 2, product_id := 1, kind := "file", sect := "download",
    storage_bucket := "products", storage_path := "1/download/5-b.pdf",
    title := some "b.pdf", alt := none, is_primary := false, is_secondary := false,
    sort_order := 1, filename := "b.pdf", mime_type := "application/pdf",
    file_size_bytes := 10, is_public := true }

-- ============================
-- Helper lemmas
-- ============================

theorem quantityOK_clamp (v : Option ℚ) : quantityOK (clampQuantity v) := by
  have hmin : quantityOK MIN_QUANTITY :=
    ⟨⟨1, by norm_num [MIN_QUANTITY]⟩, le_refl _, by norm_num [MIN_QUANTITY, MAX_QUANTITY]⟩
  have hmax : quantityOK MAX_QUANTITY :=
    ⟨⟨99, by norm_num [MAX_QUANTITY]⟩, by norm_num [MIN_QUANTITY, MAX_QUANTITY], le_refl _⟩
  rcases v with _ | q
  · simpa only [clampQuantity] using hmin
  · simp only [clampQuantity]
    by_cases h1 : q < MIN_QUANTITY
    · rw [if_pos h1]; exact hmin
    · rw [if_neg h1]
      by_cases h2 : q > MAX_QUANTITY
      · rw [if_pos h2]; exact hmax
      · rw [if_neg h2]
        refine ⟨⟨⌊q⌋, rfl⟩, ?_, ?_⟩
        · have hq1 : (1 : ℚ) ≤ q := le_of_not_lt h1
          have h3 : (1 : ℤ) ≤ ⌊q⌋ := Int.le_floor.mpr (by exact_mod_cast hq1)
          have h4 : ((1 : ℤ) : ℚ) ≤ ((⌊q⌋ : ℤ) : ℚ) := Int.cast_le.mpr h3
          simpa [MIN_QUANTITY] using h4
        · have hq2 : q ≤ MAX_QUANTITY := le_of_not_lt h2
          exact le_trans (Int.floor_le q) hq2

theorem cartInvariant_setKey {cart : Cart} {key : String} {v : Option CartItem}
    (h : cartInvariant cart)
    (hv : ∀ item, v = some item → quantityOK item.quantity) :
    cartInvariant (cart.setKey key v) := by
  intro k item hk
  unfold Cart.setKey at hk
  by_cases hkey : k = key
  · rw [if_pos hkey] at hk
    exact hv _ hk
  · rw [if_neg hkey] at hk
    exact h _ _ hk

theorem addToCart_invariant (cart : Cart) (product : CartItemData) (q : Option ℚ)
    (h : cartInvariant cart) : cartInvariant (addToCart cart product q) := by
  unfold addToCart
  rcases hc : cart (toString product.id) with _ | item
  · simp only [hc]
    refine cartInvariant_setKey h ?_
    rintro it hit
    cases hit
    exact quantityOK_clamp q
  · simp only [hc]
    refine cartInvariant_setKey h ?_
    rintro it hit
    cases hit
    exact quantityOK_clamp (some (item.quantity + clampQuantity q))

theorem increaseQuantity_invariant (cart : Cart) (pid : String)
    (h : cartInvariant cart) : cartInvariant (increaseQuantity cart pid) := by
  unfold increaseQuantity
  rcases hc : cart pid with _ | item
  · simpa only [hc] using h
  · simp only [hc]
    refine cartInvariant_setKey h ?_
    rintro it hit
    cases hit
    exact quantityOK_clamp (some (item.quantity + 1))

theorem decreaseQuantity_invariant (cart : Cart) (pid : String)
    (h : cartInvariant cart) : cartInvariant (decreaseQuantity cart pid) := by
  unfold decreaseQuantity
  rcases hc : cart pid with _ | item
  · simpa only [hc] using h
  · simp only [hc]
    split
    · rename_i hgt
      refine cartInvariant_setKey h ?_
      rintro it hit
      cases hit
      obtain ⟨⟨n, hn⟩, _h1, h99⟩ := h _ _ hc
      have hn2 : (2 : ℤ) ≤ n := by
        have : (1 : ℚ) < (n : ℚ) := by rw [← hn]; exact hgt
        exact_mod_cast this
      have h2q : (2 : ℚ) ≤ (n : ℚ) := by exact_mod_cast hn2
      refine ⟨⟨n - 1, by rw [hn]; push_cast; ring⟩, ?_, ?_⟩
      · show MIN_QUANTITY ≤ item.quantity - 1
        have hm : MIN_QUANTITY = (1 : ℚ) := rfl
        rw [hm, hn]
        linarith
      · show item.quantity - 1 ≤ MAX_QUANTITY
        have h0 : (0 : ℚ) < 1 := by norm_num
        linarith
    · exact h

theorem setQuantity_invariant (cart : Cart) (pid : String) (q : Option ℚ)
    (h : cartInvariant cart) : cartInvariant (setQuantity cart pid q) := by
  unfold setQuantity
  rcases hc : cart pid with _ | item
  · simpa only [hc] using h
  · simp only [hc]
    refine cartInvariant_setKey h ?_
    rintro it hit
    cases hit
    exact quantityOK_clamp q

theorem removeFromCart_invariant (cart : Cart) (pid : String)
    (h : cartInvariant cart) : cartInvariant (removeFromCart cart pid) := by
  unfold removeFromCart
  refine cartInvariant_setKey h ?_
  rintro it hit
  cases hit

theorem clearCart_invariant (cart : Cart) : cartInvariant (clearCart cart) := by
  intro k item hk
  cases hk

theorem singleRow_eq_some {α : Type} {l : List α} {a : α} (h : singleRow l = some a) :
    l = [a] := by
  match l, h with
  | [x], h =>
    unfold singleRow at h
    injection h with h
    rw [h]

theorem singleRow_of_length_one {α : Type} {l : List α} (h : l.length = 1) :
    ∃ a, l = [a] ∧ singleRow l = some a := by
  obtain ⟨a, ha⟩ := List.length_eq_one.mp h
  exact ⟨a, ha, by rw [ha]; rfl⟩

theorem countP_map_le {α : Type} (l : List α) (f : α → α) (p q : α → Bool)
    (h : ∀ x ∈ l, p (f x) = true → q x = true) :
    (l.map f).countP p ≤ l.countP q := by
  induction l with
  | nil => simp
  | cons a t ih =>
    have ht := ih (fun x hx hpx => h x (List.mem_cons_of_mem a hx) hpx)
    simp only [List.map_cons, List.countP_cons]
    by_cases hp : p (f a) = true
    · have hq := h a (List.mem_cons_self a t) hp
      simp only [hp, hq, if_true]
      omega
    · have hp2 : p (f a) = false := Bool.eq_false_iff.mpr hp
      simp only [hp2, Bool.false_eq_true, if_false]
      by_cases hq : q a = true
      · simp only [hq, if_true]; omega
      · have hq2 : q a = false := Bool.eq_false_iff.mpr hq
        simp only [hq2, Bool.false_eq_true, if_false]; omega

theorem countP_map_eq {α : Type} (l : List α) (f : α → α) (p : α → Bool)
    (h : ∀ x ∈ l, p (f x) = p x) : (l.map f).countP p = l.countP p := by
  induction l with
  | nil => simp
  | cons a t ih =>
    have ht := ih (fun x hx => h x (List.mem_cons_of_mem a hx))
    simp only [List.map_cons, List.countP_cons, ht, h a (List.mem_cons_self a t)]

theorem galleryPrimaryCount_clearPrimary_self (assets : List AssetRow) (pid : Nat) :
    galleryPrimaryCount (clearPrimary assets pid) pid = 0 := by
  unfold galleryPrimaryCount clearPrimary
  rw [List.countP_eq_zero]
  intro a ha
  obtain ⟨x, hx, rfl⟩ := List.mem_map.mp ha
  by_cases hc : (x.product_id == pid && x.sect == "gallery") = true
  · rw [if_pos hc]
    simp
  · rw [if_neg hc]
    intro hcon
    exact hc ((Bool.and_eq_true _ _).mp hcon).1

theorem galleryPrimaryCount_clearPrimary_ne (assets : List AssetRow) (pid pid2 : Nat)
    (hne : pid2 ≠ pid) :
    galleryPrimaryCount (clearPrimary assets pid) pid2 = galleryPrimaryCount assets pid2 := by
  unfold galleryPrimaryCount clearPrimary
  apply countP_map_eq
  intro x _hx
  by_cases hc : (x.product_id == pid && x.sect == "gallery") = true
  · rw [if_pos hc]
    have hxp : x.product_id = pid := beq_iff_eq.mp ((Bool.and_eq_true _ _).mp hc).1
    have hne2 : pid ≠ pid2 := fun hh => hne hh.symm
    have h2 : (x.product_id == pid2) = false := by
      rw [hxp]
      exact beq_eq_false_iff_ne.mpr hne2
    simp [h2]
  · rw [if_neg hc]

theorem galleryPrimaryCount_clearSecondary (assets : List AssetRow) (pid pid2 : Nat) :
    galleryPrimaryCount (clearSecondary assets pid) pid2 = galleryPrimaryCount assets pid2 := by
  unfold galleryPrimaryCount clearSecondary
  apply countP_map_eq
  intro x _hx
  by_cases hc : (x.product_id == pid && x.sect == "gallery") = true
  · rw [if_pos hc]
  · rw [if_neg hc]

theorem clearPrimary_invariant (assets : List AssetRow) (pid : Nat)
    (h : atMostOnePrimary assets) : atMostOnePrimary (clearPrimary assets pid) := by
  intro q
  by_cases hq : q = pid
  · rw [hq, galleryPrimaryCount_clearPrimary_self]
    omega
  · rw [galleryPrimaryCount_clearPrimary_ne assets pid q hq]
    exact h q

theorem clearPrimary_id_count (assets : List AssetRow) (pid i : Nat) :
    (clearPrimary assets pid).countP (fun a => a.id == i)
      = assets.countP (fun a => a.id == i) := by
  unfold clearPrimary
  apply countP_map_eq
  intro x _hx
  by_cases hc : (x.product_id == pid && x.sect == "gallery") = true
  · rw [if_pos hc]
  · rw [if_neg hc]

theorem galleryPrimaryCount_append (l1 l2 : List AssetRow) (pid : Nat) :
    galleryPrimaryCount (l1 ++ l2) pid
      = galleryPrimaryCount l1 pid + galleryPrimaryCount l2 pid := by
  unfold galleryPrimaryCount
  exact List.countP_append _ _ _

theorem createAssetRecord_invariant (pid : Nat) (pname : String) (file : UploadedFile)
    (sect : String) (ip isec : Bool) (newPath : String) (env : MoveEnv) (db : Db)
    (h : atMostOnePrimary db.product_assets) :
    atMostOnePrimary
      (createAssetRecord pid pname file sect ip isec newPath env db).2.product_assets := by
  have ha1 : atMostOnePrimary
      (if ip then clearPrimary db.product_assets pid else db.product_assets) := by
    by_cases hip : ip = true
    · rw [if_pos hip]; exact clearPrimary_invariant _ _ h
    · rw [if_neg hip]; exact h
  have ha1z : ip = true →
      galleryPrimaryCount
        (if ip then clearPrimary db.product_assets pid else db.product_assets) pid = 0 := by
    intro hip
    rw [if_pos hip, galleryPrimaryCount_clearPrimary_self]
  have ha2 : ∀ q,
      galleryPrimaryCount
        (if isec then
          clearSecondary
            (if ip then clearPrimary db.product_assets pid else db.product_assets) pid
         else (if ip then clearPrimary db.product_assets pid else db.product_assets)) q
      = galleryPrimaryCount
          (if ip then clearPrimary db.product_assets pid else db.product_assets) q := by
    intro q
    by_cases his : isec = true
    · rw [if_pos his, galleryPrimaryCount_clearSecondary]
    · rw [if_neg his]
  intro q
  unfold createAssetRecord
  cases henv : env.insertError with
  | some e =>
    simp only [henv]
    rw [ha2 q]
    exact ha1 q
  | none =>
    simp only [henv]
    rw [galleryPrimaryCount_append, ha2 q]
    by_cases hip : ip = true
    · by_cases hq : q = pid
      · rw [hq, ha1z hip]
        have : galleryPrimaryCount
            [{ id := env.freshId, product_id := pid, kind := file.kind, sect := sect,
               storage_bucket := "products", storage_path := newPath,
               title := if sect == "download" then some file.filename else none,
               alt := if sect != "download" then some pname else none,
               is_primary := ip, is_secondary := isec,
               sort_order := lastSortOrder db.product_assets pid sect + 1,
               filename := file.filename, mime_type := file.mime_type,
               file_size_bytes := file.file_size_bytes, is_public := true }] pid ≤ 1 := by
          unfold galleryPrimaryCount
          simp only [List.countP_cons, List.countP_nil]
          split <;> omega
        omega
      · have hpp : (pid == q) = false := beq_eq_false_iff_ne.mpr (fun hh => hq hh.symm)
        have hz : galleryPrimaryCount
            [{ id := env.freshId, product_id := pid, kind := file.kind, sect := sect,
               storage_bucket := "products", storage_path := newPath,
               title := if sect == "download" then some file.filename else none,
               alt := if sect != "download" then some pname else none,
               is_primary := ip, is_secondary := isec,
               sort_order := lastSortOrder db.product_assets pid sect + 1,
               filename := file.filename, mime_type := file.mime_type,
               file_size_bytes := file.file_size_bytes, is_public := true }] q = 0 := by
          unfold galleryPrimaryCount
          simp [hpp]
        rw [hz]
        have := ha1 q
        omega
    · have hip2 : ip = false := Bool.eq_false_iff.mpr hip
      have hz : galleryPrimaryCount
          [{ id := env.freshId, product_id := pid, kind := file.kind, sect := sect,
             storage_bucket := "products", storage_path := newPath,
             title := if sect == "download" then some file.filename else none,
             alt := if sect != "download" then some pname else none,
             is_primary := ip, is_secondary := isec,
             sort_order := lastSortOrder db.product_assets pid sect + 1,
             filename := file.filename, mime_type := file.mime_type,
             file_size_bytes := file.file_size_bytes, is_public := true }] q = 0 := by
        unfold galleryPrimaryCount
        simp [hip2]
      rw [hz]
      have := ha1 q
      omega

theorem moveFileAndCreateAsset_invariant (pid : Nat) (pname : String)
    (file : UploadedFile) (sect : String) (ip isec : Bool) (env : MoveEnv) (db : Db)
    (h : atMostOnePrimary db.product_assets) :
    atMostOnePrimary
      (moveFileAndCreateAsset pid pname file sect ip isec env db).2.1.product_assets := by
  unfold moveFileAndCreateAsset
  by_cases hmf : env.moveFails = true
  · simp only [hmf, if_true]
    cases hlk : storageLookup db.storage file.storage_path with
    | some d =>
      simp only [hlk]
      exact createAssetRecord_invariant pid pname file sect ip isec _ env _ h
    | none =>
      simp only [hlk]
      exact h
  · have hmf2 : env.moveFails = false := Bool.eq_false_iff.mpr hmf
    simp only [hmf2, Bool.false_eq_true, if_false]
    exact createAssetRecord_invariant pid pname file sect ip isec _ env _ h

theorem galleryPrimaryCount_singleton_le (a : AssetRow) (q : Nat) :
    galleryPrimaryCount [a] q ≤ 1 := by
  unfold galleryPrimaryCount
  simp only [List.countP_cons, List.countP_nil]
  split <;> omega

theorem galleryPrimaryCount_singleton_ne (a : AssetRow) (q : Nat)
    (hne : (a.product_id == q) = false) : galleryPrimaryCount [a] q = 0 := by
  unfold galleryPrimaryCount
  simp [hne]

theorem galleryPrimaryCount_singleton_notprimary (a : AssetRow) (q : Nat)
    (hnp : a.is_primary = false) : galleryPrimaryCount [a] q = 0 := by
  unfold galleryPrimaryCount
  simp [hnp]

theorem galleryPrimaryCount_singleton_notgallery (a : AssetRow) (q : Nat)
    (hng : (a.sect == "gallery") = false) : galleryPrimaryCount [a] q = 0 := by
  unfold galleryPrimaryCount
  simp [hng]

theorem setAssetAsPrimary_invariant (assets : List AssetRow) (assetId : Nat)
    (updErr : Option String) (h : atMostOnePrimary assets) :
    atMostOnePrimary (setAssetAsPrimary assets assetId updErr).2 := by
  unfold setAssetAsPrimary
  cases hsr : singleRow (assets.filter (fun a => a.id == assetId)) with
  | none => exact h
  | some asset =>
    dsimp only
    by_cases hsec : (asset.sect != "gallery") = true
    · rw [if_pos hsec]
      exact h
    · rw [if_neg hsec]
      have hfa : assets.filter (fun a => a.id == assetId) = [asset] := singleRow_eq_some hsr
      cases hupd : updErr with
      | some e => exact clearPrimary_invariant _ _ h
      | none =>
        dsimp only
        intro q
        by_cases hq : q = asset.product_id
        · rw [hq]
          have hzero : galleryPrimaryCount (clearPrimary assets asset.product_id)
              asset.product_id = 0 := galleryPrimaryCount_clearPrimary_self _ _
          unfold galleryPrimaryCount at hzero ⊢
          have hno := List.countP_eq_zero.mp hzero
          have hle : ((clearPrimary assets asset.product_id).map
                (fun a => if a.id == assetId then { a with is_primary := true } else a)).countP
              (fun a => a.product_id == asset.product_id && a.sect == "gallery" && a.is_primary)
              ≤ (clearPrimary assets asset.product_id).countP (fun a => a.id == assetId) := by
            apply countP_map_le
            intro x hx hpx
            by_cases hid : (x.id == assetId) = true
            · exact hid
            · rw [if_neg hid] at hpx
              exact absurd hpx (hno x hx)
          have hcnt := clearPrimary_id_count assets asset.product_id assetId
          have h1 : assets.countP (fun a => a.id == assetId) = 1 := by
            rw [List.countP_eq_length_filter, hfa]
            rfl
          rw [hcnt, h1] at hle
          exact hle
        · have hmeq : galleryPrimaryCount
              ((clearPrimary assets asset.product_id).map
                (fun a => if a.id == assetId then { a with is_primary := true } else a)) q
              = galleryPrimaryCount (clearPrimary assets asset.product_id) q := by
            unfold galleryPrimaryCount
            apply countP_map_eq
            intro x hx
            by_cases hid : (x.id == assetId) = true
            · rw [if_pos hid]
              obtain ⟨y, hy, hxy⟩ := List.mem_map.mp hx
              have hxid : x.id = y.id := by
                rw [← hxy]
                split <;> rfl
              have hyA : y = asset := by
                have hyf : y ∈ assets.filter (fun a => a.id == assetId) :=
                  List.mem_filter.mpr ⟨hy, by rw [← hxid]; exact hid⟩
                rw [hfa] at hyf
                exact List.mem_singleton.mp hyf
              have hxpid : x.product_id = asset.product_id := by
                rw [← hxy, hyA]
                split <;> rfl
              have hff : (x.product_id == q) = false := by
                rw [hxpid]
                exact beq_eq_false_iff_ne.mpr (fun hh => hq hh.symm)
              simp [hff]
            · rw [if_neg hid]
          rw [hmeq, galleryPrimaryCount_clearPrimary_ne _ _ _ hq]
          exact h q

theorem uploadProductAsset_invariant (pid : Nat) (fn ft : String) (fs : Nat)
    (kind sect : String) (title alt : Option String) (ipr : Option Bool)
    (fd ts fid : Nat) (ue de : Option String) (db : Db)
    (h : atMostOnePrimary db.product_assets) :
    atMostOnePrimary
      (uploadProductAsset pid fn ft fs kind sect title alt ipr fd ts fid ue de db).2.product_assets := by
  unfold uploadProductAsset
  cases hue : ue with
  | some e => exact h
  | none =>
    dsimp only
    have ha1 : atMostOnePrimary
        (if ipr.getD false && sect == "gallery" then
          clearPrimary db.product_assets pid else db.product_assets) := by
      by_cases hc : (ipr.getD false && sect == "gallery") = true
      · rw [if_pos hc]; exact clearPrimary_invariant _ _ h
      · rw [if_neg hc]; exact h
    cases hde : de with
    | some e => exact ha1
    | none =>
      dsimp only
      intro q
      rw [galleryPrimaryCount_append]
      by_cases hip : ipr.getD false = true
      · by_cases hsg : (sect == "gallery") = true
        · have hc : (ipr.getD false && sect == "gallery") = true := by rw [hip, hsg]; rfl
          rw [if_pos hc]
          by_cases hq : q = pid
          · rw [hq, galleryPrimaryCount_clearPrimary_self]
            have := galleryPrimaryCount_singleton_le
              { id := fid, product_id := pid, kind := kind, sect := sect,
                storage_bucket := "products",
                storage_path := movedPath pid sect ts fn, title := title, alt := alt,
                is_primary := ipr.getD false, is_secondary := false,
                sort_order := lastSortOrder (clearPrimary db.product_assets pid) pid sect + 1,
                filename := fn, mime_type := ft, file_size_bytes := fs,
                is_public := true } pid
            omega
          · rw [galleryPrimaryCount_clearPrimary_ne _ _ _ hq]
            have hz := galleryPrimaryCount_singleton_ne
              { id := fid, product_id := pid, kind := kind, sect := sect,
                storage_bucket := "products",
                storage_path := movedPath pid sect ts fn, title := title, alt := alt,
                is_primary := ipr.getD false, is_secondary := false,
                sort_order := lastSortOrder (clearPrimary db.product_assets pid) pid sect + 1,
                filename := fn, mime_type := ft, file_size_bytes := fs,
                is_public := true } q
              (beq_eq_false_iff_ne.mpr (fun hh => hq hh.symm))
            rw [hz]
            have := h q
            omega
        · have hsg2 : (sect == "gallery") = false := Bool.eq_false_iff.mpr hsg
          have hc : (ipr.getD false && sect == "gallery") = false := by
            rw [hsg2]
            simp
          rw [if_neg (by simp [hc])]
          have hz := galleryPrimaryCount_singleton_notgallery
            { id := fid, product_id := pid, kind := kind, sect := sect,
              storage_bucket := "products",
              storage_path := movedPath pid sect ts fn, title := title, alt := alt,
              is_primary := ipr.getD false, is_secondary := false,
              sort_order := lastSortOrder db.product_assets pid sect + 1,
              filename := fn, mime_type := ft, file_size_bytes := fs,
              is_public := true } q hsg2
          rw [hz]
          have := h q
          omega
      · have hip2 : ipr.getD false = false := Bool.eq_false_iff.mpr hip
        have hc : (ipr.getD false && sect == "gallery") = false := by
          rw [hip2]
          simp
        rw [if_neg (by simp [hc])]
        have hz := galleryPrimaryCount_singleton_notprimary
          { id := fid, product_id := pid, kind := kind, sect := sect,
            storage_bucket := "products",
            storage_path := movedPath pid sect ts fn, title := title, alt := alt,
            is_primary := ipr.getD false, is_secondary := false,
            sort_order := lastSortOrder db.product_assets pid sect + 1,
            filename := fn, mime_type := ft, file_size_bytes := fs,
            is_public := true } q hip2
        rw [hz]
        have := h q
        omega

theorem setAssetAsSecondary_invariant (assets : List AssetRow) (assetId : Option Nat)
    (pid : Nat) (ue : Option String) (h : atMostOnePrimary assets) :
    atMostOnePrimary (setAssetAsSecondary assets assetId pid ue).2 := by
  unfold setAssetAsSecondary
  cases assetId with
  | none =>
    intro q
    rw [galleryPrimaryCount_clearSecondary]
    exact h q
  | some aid =>
    dsimp only
    by_cases ha : (aid != 0) = true
    · rw [if_pos ha]
      cases hue : ue with
      | some e =>
        intro q
        rw [galleryPrimaryCount_clearSecondary]
        exact h q
      | none =>
        dsimp only
        intro q
        have hmeq : galleryPrimaryCount
            ((clearSecondary assets pid).map
              (fun a => if a.id == aid then { a with is_secondary := true } else a)) q
            = galleryPrimaryCount (clearSecondary assets pid) q := by
          unfold galleryPrimaryCount
          apply countP_map_eq
          intro x _hx
          by_cases hid : (x.id == aid) = true
          · rw [if_pos hid]
          · rw [if_neg hid]
        rw [hmeq, galleryPrimaryCount_clearSecondary]
        exact h q
    · rw [if_neg ha]
      intro q
      rw [galleryPrimaryCount_clearSecondary]
      exact h q

theorem sampleAssets_invariant : atMostOnePrimary [galleryAsset, downloadAsset] := by
  intro q
  unfold galleryPrimaryCount galleryAsset downloadAsset
  simp only [List.countP_cons, List.countP_nil]
  by_cases hq : (1 == q) = true <;> simp [hq]

-- ============================
-- Claim theorems
-- ============================

theorem normalizePagination_bounds (p : PaginationInput) :
    1 ≤ (normalizePagination p).page
    ∧ 1 ≤ (normalizePagination p).pageSize
    ∧ (normalizePagination p).pageSize ≤ MAX_PAGE_SIZE := by
  rcases p with ⟨pg, ps⟩
  unfold normalizePagination jsOr MAX_PAGE_SIZE DEFAULT_PAGE_SIZE
  rcases pg with _ | x <;> rcases ps with _ | y <;> dsimp only <;>
    split_ifs <;> simp_all

theorem normalizePagination_page_eq (p : PaginationInput) :
    (normalizePagination p).page = 1 ∨ p.page = some (normalizePagination p).page := by
  rcases p with ⟨pg, ps⟩
  unfold normalizePagination jsOr
  rcases pg with _ | x <;> dsimp only
  · left; rfl
  · by_cases hx : (x == 0) = true
    · rw [if_pos hx]
      left
      norm_num
    · rw [if_neg hx]
      by_cases hlt : x < 1
      · rw [if_pos hlt]; left; rfl
      · rw [if_neg hlt]; right; rfl

theorem paginateRows_ok (matching : List ProductRow) (ff : Bool) (p : PaginationInput)
    (res : PaginatedProducts) (h : paginateRows matching ff p = Except.ok res) :
    res.page = (normalizePagination p).page
    ∧ res.pageSize = (normalizePagination p).pageSize
    ∧ res.total = matching.length
    ∧ res.totalPages = pagTotalPages res.total res.pageSize
    ∧ ((res.totalPages : Int) < res.page ∧ 0 < res.totalPages →
        res.items = [] ∧ p.page = some res.page) := by
  unfold paginateRows at h
  by_cases hc : (normalizePagination p).page
      > ((pagTotalPages matching.length (normalizePagination p).pageSize : Nat) : Int)
      ∧ pagTotalPages matching.length (normalizePagination p).pageSize > 0
  · rw [if_pos hc] at h
    injection h with h
    subst h
    refine ⟨rfl, rfl, rfl, rfl, fun _ => ⟨rfl, ?_⟩⟩
    rcases normalizePagination_page_eq p with h1 | h1
    · exfalso
      have hge : (1 : Int) ≤ (pagTotalPages matching.length (normalizePagination p).pageSize : Int) := by
        exact_mod_cast hc.2
      rw [h1] at hc
      omega
    · exact h1
  · rw [if_neg hc] at h
    rcases hff : ff with _ | _
    · rw [hff] at h
      simp only [if_neg Bool.false_ne_true] at h
      injection h with h
      subst h
      refine ⟨rfl, rfl, rfl, rfl, fun hcon => absurd ?_ hc⟩
      exact ⟨hcon.1, hcon.2⟩
    · rw [hff] at h
      simp at h

/-- C3: the effective pagination of `getProductsByCategory` and
`getProductsBySubcategory` is normalized (page at least 1, pageSize in
`[1, MAX_PAGE_SIZE] = [1, 50]`), `totalPages` is `ceil(total / pageSize)`
when `total > 0` and `0` otherwise, and whenever the normalized page exceeds
a positive `totalPages` the result has no items while still reporting the
requested page, the normalized pageSize, the exact total and totalPages. -/
theorem claim3_pagination_normalization :
    (∀ p : PaginationInput,
      1 ≤ (normalizePagination p).page
      ∧ 1 ≤ (normalizePagination p).pageSize
      ∧ (normalizePagination p).pageSize ≤ MAX_PAGE_SIZE)
    ∧ (∀ db categoryId filt ff p res,
        getProductsByCategory db categoryId filt ff p = Except.ok res →
        res.page = (normalizePagination p).page
        ∧ res.pageSize = (normalizePagination p).pageSize
        ∧ res.total = (rowsByCategory db categoryId filt).length
        ∧ res.totalPages = (if 0 < res.total then ceilDiv res.total res.pageSize.toNat else 0)
        ∧ ((res.totalPages : Int) < res.page ∧ 0 < res.totalPages →
            res.items = [] ∧ p.page = some res.page))
    ∧ (∀ db subcategoryId filt ff p res,
        getProductsBySubcategory db subcategoryId filt ff p = Except.ok res →
        res.page = (normalizePagination p).page
        ∧ res.pageSize = (normalizePagination p).pageSize
        ∧ res.total = (rowsBySubcategory db subcategoryId filt).length
        ∧ res.totalPages = (if 0 < res.total then ceilDiv res.total res.pageSize.toNat else 0)
        ∧ ((res.totalPages : Int) < res.page ∧ 0 < res.totalPages →
            res.items = [] ∧ p.page = some res.page)) := by
  refine ⟨normalizePagination_bounds, ?_, ?_⟩
  · intro db categoryId filt ff p res h
    have := paginateRows_ok _ _ _ _ h
    exact ⟨this.1, this.2.1, this.2.2.1, by rw [this.2.2.2.1]; rfl, this.2.2.2.2⟩
  · intro db subcategoryId filt ff p res h
    have := paginateRows_ok _ _ _ _ h
    exact ⟨this.1, this.2.1, this.2.2.1, by rw [this.2.2.2.1]; rfl, this.2.2.2.2⟩

/-- Witness for C3 at a concrete call: three matching rows, pageSize 2,
requested page 5 is out of range (totalPages 2), so the result is the empty
page 5. -/
theorem claim3_pagination_normalization_witness :
    resOutOfRange.page = (normalizePagination { page := some 5, pageSize := some 2 }).page
    ∧ resOutOfRange.pageSize
      = (normalizePagination { page := some 5, pageSize := some 2 }).pageSize
    ∧ resOutOfRange.total = (rowsByCategory dbThree 7 (fun _ => true)).length
    ∧ resOutOfRange.totalPages
      = (if 0 < resOutOfRange.total then
          ceilDiv resOutOfRange.total resOutOfRange.pageSize.toNat else 0)
    ∧ ((resOutOfRange.totalPages : Int) < resOutOfRange.page ∧ 0 < resOutOfRange.totalPages →
        resOutOfRange.items = []
        ∧ ({ page := some 5, pageSize := some 2 } : PaginationInput).page
          = some resOutOfRange.page) :=
  claim3_pagination_normalization.2.1 dbThree 7 (fun _ => true) false
    { page := some 5, pageSize := some 2 } resOutOfRange rfl

/-- C6: the signed-upload-URL endpoint, for an authenticated user, answers
400 when a field is missing, when the section is not one of
gallery/additional/download, or when the content type is not allowed for the
section (images and videos for gallery and additional; images, videos and
documents for download); otherwise, on storage success, it answers 200 with
the signed URL, the token, and the path
`temp/(tempUploadId)/(section)/(timestamp)-(sanitized filename)`, where
sanitization replaces every character outside `[a-zA-Z0-9.-]` with an
underscore. -/
theorem claim6_upload_url_validation :
    (∀ user filename contentType sect tempUploadId ts sr,
      (filename = "" ∨ contentType = "" ∨ sect = "" ∨ tempUploadId = "") →
      (uploadUrlPOST (some user) filename contentType sect tempUploadId ts sr).status = 400)
    ∧ (∀ user filename contentType sect tempUploadId ts sr,
      filename ≠ "" → contentType ≠ "" → sect ≠ "" → tempUploadId ≠ "" →
      validSections.contains sect = false →
      (uploadUrlPOST (some user) filename contentType sect tempUploadId ts sr).status = 400)
    ∧ (∀ user filename contentType sect tempUploadId ts sr,
      filename ≠ "" → contentType ≠ "" → sect ≠ "" → tempUploadId ≠ "" →
      (allowedTypes sect).contains contentType = false →
      (uploadUrlPOST (some user) filename contentType sect tempUploadId ts sr).status = 400)
    ∧ (∀ user filename contentType sect tempUploadId ts su tok,
      filename ≠ "" → contentType ≠ "" → sect ≠ "" → tempUploadId ≠ "" →
      validSections.contains sect = true →
      (allowedTypes sect).contains contentType = true →
      uploadUrlPOST (some user) filename contentType sect tempUploadId ts
          (Except.ok (su, tok))
        = { status := 200,
            body := Json.obj [("signedUrl", Json.str su), ("token", Json.str tok),
              ("path", Json.str ("temp/" ++ tempUploadId ++ "/" ++ sect ++ "/"
                ++ toString ts ++ "-" ++ sanitizedFilename filename))] })
    ∧ (∀ f : String,
        (sanitizedFilename f).data = f.data.map (fun c => if isFilenameChar c then c else '_'))
    ∧ allowedTypes "gallery" = imageTypes ++ videoTypes
    ∧ allowedTypes "additional" = imageTypes ++ videoTypes
    ∧ allowedTypes "download" = imageTypes ++ videoTypes ++ documentTypes := by
  refine ⟨?_, ?_, ?_, ?_, ?_, rfl, rfl, rfl⟩
  · intro user filename contentType sect tempUploadId ts sr h
    have hcond : (filename == "" || contentType == "" || sect == "" || tempUploadId == "")
        = true := by
      rcases h with h | h | h | h <;> simp [h]
    simp [uploadUrlPOST, hcond]
  · intro user filename contentType sect tempUploadId ts sr hf hct hs ht hsec
    have hsec2 : sect ∉ validSections := by simpa using hsec
    simp [uploadUrlPOST, hf, hct, hs, ht, hsec2]
  · intro user filename contentType sect tempUploadId ts sr hf hct hs ht htype
    have htype2 : contentType ∉ allowedTypes sect := by simpa using htype
    by_cases hv : sect ∈ validSections
    · simp [uploadUrlPOST, hf, hct, hs, ht, hv, htype2]
    · simp [uploadUrlPOST, hf, hct, hs, ht, hv]
  · intro user filename contentType sect tempUploadId ts su tok hf hct hs ht hsec htype
    have hsec2 : sect ∈ validSections := by simpa using hsec
    have htype2 : contentType ∈ allowedTypes sect := by simpa using htype
    simp [uploadUrlPOST, hf, hct, hs, ht, hsec2, htype2, tempStoragePath]
  · intro f
    rfl

/-- Witness for C6 at a concrete request: a valid gallery image upload whose
filename contains a space. -/
theorem claim6_upload_url_validation_witness :
    uploadUrlPOST (some "admin") "my file.png" "image/png" "gallery" "t1" 99
        (Except.ok ("signed-url", "tok"))
      = { status := 200,
          body := Json.obj [("signedUrl", Json.str "signed-url"), ("token", Json.str "tok"),
            ("path", Json.str ("temp/" ++ "t1" ++ "/" ++ "gallery" ++ "/"
              ++ toString (99 : Nat) ++ "-" ++ sanitizedFilename "my file.png"))] } :=
  claim6_upload_url_validation.2.2.2.1 "admin" "my file.png" "image/png" "gallery" "t1" 99
    "signed-url" "tok" (by decide) (by decide) (by decide) (by decide) (by decide) (by decide)

/-- C5: the foreign-key delete guards refuse atomically.  For an
authenticated DELETE of a category that still has a subcategory, and of a
subcategory that still has a product, the handler answers 400 with
success: false and the store is unchanged. -/
theorem claim5_delete_guards :
    (∀ db user id derr,
      (∃ s ∈ db.subcategories, s.category_id = id) →
      categoryDELETE db (some user) id derr
        = (jsonErr 400 "No se puede eliminar: hay subcategorías asociadas", db))
    ∧ (∀ db user id derr,
      (∃ p ∈ db.products, p.subcategory_id = id) →
      subcategoryDELETE db (some user) id derr
        = (jsonErr 400
            "No se puede eliminar: hay productos asociados. Muévelos a otra subcategoría primero.",
           db)) := by
  constructor
  · rintro db user id derr ⟨s, hs, hsid⟩
    have hmem : s ∈ db.subcategories.filter (fun x => x.category_id == id) :=
      List.mem_filter.mpr ⟨hs, by simp [hsid]⟩
    have hlen : 0 < (db.subcategories.filter (fun x => x.category_id == id)).length :=
      List.length_pos.mpr (List.ne_nil_of_mem hmem)
    have hguard :
        ((db.subcategories.filter (fun x => x.category_id == id)).take 1).length > 0 := by
      rw [List.length_take]
      omega
    simp only [categoryDELETE, Option.isNone_some, Bool.false_eq_true, if_false,
      if_pos hguard]
  · rintro db user id derr ⟨p, hp, hpid⟩
    have hmem : p ∈ db.products.filter (fun x => x.subcategory_id == id) :=
      List.mem_filter.mpr ⟨hp, by simp [hpid]⟩
    have hlen : 0 < (db.products.filter (fun x => x.subcategory_id == id)).length :=
      List.length_pos.mpr (List.ne_nil_of_mem hmem)
    have hguard :
        ((db.products.filter (fun x => x.subcategory_id == id)).take 1).length > 0 := by
      rw [List.length_take]
      omega
    simp only [subcategoryDELETE, Option.isNone_some, Bool.false_eq_true, if_false,
      if_pos hguard]

/-- Witness for C5: deleting category 7, which still has subcategory 3, and
subcategory 1, which still has product 1, are both refused with the store
unchanged. -/
theorem claim5_delete_guards_witness :
    categoryDELETE dbGuard (some "admin") 7 none
      = (jsonErr 400 "No se puede eliminar: hay subcategorías asociadas", dbGuard)
    ∧ subcategoryDELETE dbGuard (some "admin") 1 none
      = (jsonErr 400
          "No se puede eliminar: hay productos asociados. Muévelos a otra subcategoría primero.",
         dbGuard) :=
  ⟨claim5_delete_guards.1 dbGuard "admin" 7 none
      ⟨sampleSubcategory, by decide, by decide⟩,
   claim5_delete_guards.2 dbGuard "admin" 1 none
      ⟨sampleProduct 1 "a", by decide, by decide⟩⟩

/-- C7: `clampQuantity` returns an integer in `[MIN_QUANTITY, MAX_QUANTITY]
= [1, 99]` for every numeric input including `NaN`, and each cart operation
(`addToCart`, `increaseQuantity`, `decreaseQuantity`, `setQuantity`,
`removeFromCart`, `clearCart`) preserves the invariant that every quantity
stored in the cart is an integer between 1 and 99. -/
theorem claim7_cart_quantities :
    (∀ v : Option ℚ, quantityOK (clampQuantity v))
    ∧ (∀ cart product q, cartInvariant cart → cartInvariant (addToCart cart product q))
    ∧ (∀ cart pid, cartInvariant cart → cartInvariant (increaseQuantity cart pid))
    ∧ (∀ cart pid, cartInvariant cart → cartInvariant (decreaseQuantity cart pid))
    ∧ (∀ cart pid q, cartInvariant cart → cartInvariant (setQuantity cart pid q))
    ∧ (∀ cart pid, cartInvariant cart → cartInvariant (removeFromCart cart pid))
    ∧ (∀ cart, cartInvariant (clearCart cart)) :=
  ⟨quantityOK_clamp, addToCart_invariant, increaseQuantity_invariant,
   decreaseQuantity_invariant, setQuantity_invariant, removeFromCart_invariant,
   clearCart_invariant⟩

/-- Witness for C7 at concrete inputs: starting from the empty cart,
adding a product with requested quantity 200 keeps the invariant. -/
theorem claim7_cart_quantities_witness :
    quantityOK (clampQuantity (some 200))
    ∧ cartInvariant
        (addToCart emptyCart
          { id := 1, name := "p", slug := "p", brand := none, description := none,
            image_url := none }
          (some 200)) :=
  ⟨claim7_cart_quantities.1 (some 200),
   claim7_cart_quantities.2.1 emptyCart
     { id := 1, name := "p", slug := "p", brand := none, description := none,
       image_url := none }
     (some 200) (fun _ _ h => Option.noConfusion h)⟩

/-- Counterexample for C1 as stated: with an authenticated user and a
category of slug "x" already stored, a POST whose name is empty answers 400
with error "El nombre es requerido" — not the claimed duplicate-slug body —
and moreover, were two categories of the same slug stored, `.single()` would
find none and the handler would insert a duplicate and answer 201. -/
theorem claim1_counterexample :
    (∃ c ∈ dbOneCat.categories, c.slug = "x")
    ∧ (categoriesPOST dbOneCat (some "admin") "" "x" none 2 none).1
      = jsonErr 400 "El nombre es requerido"
    ∧ jsonErr 400 "El nombre es requerido" ≠ jsonErr 400 "Ya existe una categoría con ese slug" := by
  refine ⟨⟨{ id := 1, name := "Cat", slug := "x", image_url := none }, ?_, rfl⟩, rfl, ?_⟩
  · exact List.mem_cons_self _ _
  · simp [jsonErr]

/-- C1 amended: for an authenticated POST whose name is nonempty after
trimming, when exactly one stored category has the request's slug (the
`.single()` lookup finds it), the handler answers 400 with
`(success: false, error: "Ya existe una categoría con ese slug")` and the
store is unchanged. -/
theorem claim1_duplicate_category_slug :
    ∀ db user name slug image_url freshId insertError,
      jsTrim name ≠ "" →
      (db.categories.filter (fun c => c.slug == slug)).length = 1 →
      categoriesPOST db (some user) name slug image_url freshId insertError
        = (jsonErr 400 "Ya existe una categoría con ese slug", db) := by
  intro db user name slug image_url freshId insertError hname hlen
  obtain ⟨c, hc, hsr⟩ := singleRow_of_length_one hlen
  have hni : (jsTrim name == "") = false := by simp [hname]
  simp [categoriesPOST, hni, hsr]

/-- Witness for the amended C1: one stored category of slug "x", a valid
duplicate-slug request. -/
theorem claim1_duplicate_category_slug_witness :
    categoriesPOST dbOneCat (some "admin") "New" "x" none 2 none
      = (jsonErr 400 "Ya existe una categoría con ese slug", dbOneCat) :=
  claim1_duplicate_category_slug dbOneCat "admin" "New" "x" none 2 none
    (by decide) (by decide)

/-- C2: when the storage move fails, `moveFileAndCreateAsset` makes exactly
one fallback attempt — download the old path, upload to the new path with
upsert, remove the old path — with no retry; when the download yields no
data it throws `Failed to move file: (filename)` with the store unchanged
(in particular no asset row); and when the move succeeds no fallback call is
made at all. -/
theorem claim2_move_fallback :
    (∀ pid pname file sect ip isec env db d,
      env.moveFails = true →
      storageLookup db.storage file.storage_path = some d →
      (moveFileAndCreateAsset pid pname file sect ip isec env db).2.2
        = [StorageOp.move file.storage_path (movedPath pid sect env.timestamp file.filename),
           StorageOp.download file.storage_path,
           StorageOp.upload (movedPath pid sect env.timestamp file.filename) true,
           StorageOp.remove [file.storage_path]])
    ∧ (∀ pid pname file sect ip isec env db,
      env.moveFails = true →
      storageLookup db.storage file.storage_path = none →
      moveFileAndCreateAsset pid pname file sect ip isec env db
        = (Except.error ("Failed to move file: " ++ file.filename), db,
           [StorageOp.move file.storage_path (movedPath pid sect env.timestamp file.filename),
            StorageOp.download file.storage_path]))
    ∧ (∀ pid pname file sect ip isec env db,
      env.moveFails = false →
      (moveFileAndCreateAsset pid pname file sect ip isec env db).2.2
        = [StorageOp.move file.storage_path (movedPath pid sect env.timestamp file.filename)]) := by
  refine ⟨?_, ?_, ?_⟩
  · intro pid pname file sect ip isec env db d hmf hlk
    simp [moveFileAndCreateAsset, hmf, hlk]
  · intro pid pname file sect ip isec env db hmf hlk
    simp [moveFileAndCreateAsset, hmf, hlk]
  · intro pid pname file sect ip isec env db hmf
    simp [moveFileAndCreateAsset, hmf]

/-- Witness for C2: a concrete failing move whose temp file is still
downloadable produces exactly the four fallback storage calls. -/
theorem claim2_move_fallback_witness :
    (moveFileAndCreateAsset 1 "Test" fileLost "gallery" true false
        { timestamp := 5, moveFails := true, insertError := none, freshId := 10 }
        dbWithTempFile).2.2
      = [StorageOp.move "temp/t1/gallery/a.png" (movedPath 1 "gallery" 5 "a.png"),
         StorageOp.download "temp/t1/gallery/a.png",
         StorageOp.upload (movedPath 1 "gallery" 5 "a.png") true,
         StorageOp.remove ["temp/t1/gallery/a.png"]] :=
  claim2_move_fallback.1 1 "Test" fileLost "gallery" true false
    { timestamp := 5, moveFails := true, insertError := none, freshId := 10 }
    dbWithTempFile 42 rfl rfl

/-- C9: an authenticated product POST that passes `validateProductData` but
whose slug is that of the one stored product with it answers 500 (not 400)
with `(success: false, error: "Ya existe un producto con ese slug")`: the
duplicate check throws inside `createProduct` and only the handler's generic
catch handles it, leaving the store unchanged. -/
theorem claim9_duplicate_product_slug :
    ∀ db user body env,
      body.slug ≠ "" →
      validateProductData (mkProductData body) = [] →
      (db.products.filter (fun p => p.slug == body.slug)).length = 1 →
      productPOST db (some user) body env
        = (jsonErr 500 "Ya existe un producto con ese slug", db)
      ∧ (jsonErr 500 "Ya existe un producto con ese slug").status ≠ 400 := by
  intro db user body env hslug hval hlen
  obtain ⟨p0, hp0, hsr⟩ := singleRow_of_length_one hlen
  have hbs : (body.slug == "") = false := by simp [hslug]
  have hdata : (mkProductData body).slug = body.slug := by
    simp [mkProductData, hbs]
  constructor
  · simp [productPOST, hval, createProduct, hdata, hsr]
  · simp [jsonErr]

/-- Witness for C9: a stored product of slug "test" and a valid request
reusing that slug. -/
theorem claim9_duplicate_product_slug_witness :
    productPOST dbOneProduct (some "admin") (bodyWith []) envMoveFail
      = (jsonErr 500 "Ya existe un producto con ese slug", dbOneProduct)
    ∧ (jsonErr 500 "Ya existe un producto con ese slug").status ≠ 400 :=
  claim9_duplicate_product_slug dbOneProduct "admin" (bodyWith []) envMoveFail
    (by decide) (by decide) (by decide)

/-- Counterexample for C4 as stated: in the product create handler, the
exception thrown by a failed file move (move fails and the fallback download
yields no data) is caught by the per-file try/catch, only logged, and the
request still answers 201 — not 500.  The first conjunct evaluates the inner
call exactly as the handler makes it (product id 1, name "Test", state after
`createProduct`); the second shows the handler's response. -/
theorem claim4_counterexample :
    (moveFileAndCreateAsset 1 "Test" fileLost "gallery" true false
        { timestamp := 5, moveFails := true, insertError := none, freshId := 10 }
        dbAfterCreate).1
      = Except.error "Failed to move file: a.png"
    ∧ (productPOST dbEmpty (some "admin") (bodyWith [fileLost]) envMoveFail).1.status = 201
    ∧ (201 : Nat) ≠ 500 :=
  ⟨rfl, rfl, by decide⟩

/-- C4 amended: every embedded handler is total, and an error reaching a
handler's top-level try/catch is answered with a JSON error body and status
500 — the categories list query, a failing category/subcategory insert or
delete, a failing signed-URL creation, a failing product insert, and a
failing products page query below — but exceptions thrown while processing
individual uploaded files (see the counterexample) are caught by inner
try/catch blocks, logged, and suppressed, the request still succeeding. -/
theorem claim4_top_level_catch_500 :
    (∀ e, categoriesGET (Except.error e) = jsonErr 500 e)
    ∧ (∀ db user name slug image_url freshId e,
        jsTrim name ≠ "" →
        (db.categories.filter (fun c => c.slug == slug)).length = 0 →
        categoriesPOST db (some user) name slug image_url freshId (some e)
          = (jsonErr 500 e, db))
    ∧ (∀ db user id e,
        db.subcategories.filter (fun s => s.category_id == id) = [] →
        categoryDELETE db (some user) id (some e) = (jsonErr 500 e, db))
    ∧ (∀ db user id e,
        db.products.filter (fun p => p.subcategory_id == id) = [] →
        subcategoryDELETE db (some user) id (some e) = (jsonErr 500 e, db))
    ∧ (∀ user filename contentType sect tempUploadId ts e,
        filename ≠ "" → contentType ≠ "" → sect ≠ "" → tempUploadId ≠ "" →
        validSections.contains sect = true →
        (allowedTypes sect).contains contentType = true →
        (uploadUrlPOST (some user) filename contentType sect tempUploadId ts
          (Except.error e)).status = 500)
    ∧ (∀ db user body env e,
        body.slug ≠ "" →
        validateProductData (mkProductData body) = [] →
        (db.products.filter (fun p => p.slug == body.slug)).length = 0 →
        env.insertProductError = some e →
        productPOST db (some user) body env
          = (jsonErr 500 ("Error creating product: " ++ e), db))
    ∧ (∀ db psd cslug pp pps filt cd m,
        cslug ≠ "" →
        getCategoryAndSubcategories db cslug = some cd →
        getProductsByCategory db cd.1.id filt true
            { page := some (apiPage pp), pageSize := some (apiPageSize psd pps) }
          = Except.error m →
        productsApiGET db psd (some cslug) none pp pps filt true
          = { status := 500,
              body := Json.obj [("error", Json.str "Internal server error")] }) := by
  refine ⟨fun e => rfl, ?_, ?_, ?_, ?_, ?_, ?_⟩
  · intro db user name slug image_url freshId e hname hlen
    have hfe : db.categories.filter (fun c => c.slug == slug) = [] :=
      List.length_eq_zero.mp hlen
    have hni : (jsTrim name == "") = false := by simp [hname]
    simp [categoriesPOST, hni, hfe, singleRow]
  · intro db user id e hsub
    simp [categoryDELETE, hsub]
  · intro db user id e hprod
    simp [subcategoryDELETE, hprod]
  · intro user filename contentType sect tempUploadId ts e hf hct hs ht hsec htype
    have hsec2 : sect ∈ validSections := by simpa using hsec
    have htype2 : contentType ∈ allowedTypes sect := by simpa using htype
    simp [uploadUrlPOST, hf, hct, hs, ht, hsec2, htype2]
  · intro db user body env e hslug hval hlen henv
    have hfe : db.products.filter (fun p => p.slug == body.slug) = [] :=
      List.length_eq_zero.mp hlen
    have hbs : (body.slug == "") = false := by simp [hslug]
    have hdata : (mkProductData body).slug = body.slug := by simp [mkProductData, hbs]
    simp [productPOST, hval, createProduct, hdata, hfe, singleRow, henv]
  · intro db psd cslug pp pps filt cd m hcs hcd hq
    have hcs2 : (cslug == "") = false := by simp [hcs]
    simp [productsApiGET, hcs2, hcd, hq]

/-- Witness for the amended C4: a failing category insert on the empty store
answers 500 with the injected message. -/
theorem claim4_top_level_catch_500_witness :
    categoriesPOST dbEmpty (some "admin") "New" "x" none 2 (some "db down")
      = (jsonErr 500 "db down", dbEmpty) :=
  claim4_top_level_catch_500.2.1 dbEmpty "admin" "New" "x" none 2 "db down"
    (by decide) (by decide)

/-- C8: at most one of a product's gallery assets is primary after any asset
operation: `setAssetAsPrimary` preserves the invariant (it clears
`is_primary` on the product's gallery assets before setting the chosen one)
and throws `Only gallery assets can be primary`, leaving the store
untouched, when the chosen asset is not a gallery asset;
`moveFileAndCreateAsset` and `uploadProductAsset` clear existing flags as
needed before inserting, and `setAssetAsSecondary` never touches
`is_primary`. -/
theorem claim8_at_most_one_primary :
    (∀ assets assetId updErr, atMostOnePrimary assets →
      atMostOnePrimary (setAssetAsPrimary assets assetId updErr).2)
    ∧ (∀ assets assetId updErr asset,
        singleRow (assets.filter (fun a => a.id == assetId)) = some asset →
        asset.sect ≠ "gallery" →
        setAssetAsPrimary assets assetId updErr
          = (Except.error "Only gallery assets can be primary", assets))
    ∧ (∀ pid pname file sect ip isec env db, atMostOnePrimary db.product_assets →
        atMostOnePrimary
          (moveFileAndCreateAsset pid pname file sect ip isec env db).2.1.product_assets)
    ∧ (∀ pid fn ft fs kind sect title alt ipr fd ts fid ue de db,
        atMostOnePrimary db.product_assets →
        atMostOnePrimary
          (uploadProductAsset pid fn ft fs kind sect title alt ipr fd ts fid ue
            de db).2.product_assets)
    ∧ (∀ assets assetId pid ue, atMostOnePrimary assets →
        atMostOnePrimary (setAssetAsSecondary assets assetId pid ue).2) := by
  refine ⟨setAssetAsPrimary_invariant, ?_, moveFileAndCreateAsset_invariant,
    uploadProductAsset_invariant, setAssetAsSecondary_invariant⟩
  intro assets assetId updErr asset hsr hsec
  have hb : (asset.sect != "gallery") = true := by simpa using hsec
  simp [setAssetAsPrimary, hsr, hb]

/-- Witness for C8: on a store holding one primary gallery asset and one
download asset, promoting the gallery asset keeps the invariant, and
promoting the download asset is refused with the store unchanged. -/
theorem claim8_at_most_one_primary_witness :
    atMostOnePrimary (setAssetAsPrimary [galleryAsset, downloadAsset] 1 none).2
    ∧ setAssetAsPrimary [galleryAsset, downloadAsset] 2 none
      = (Except.error "Only gallery assets can be primary",
         [galleryAsset, downloadAsset]) :=
  ⟨claim8_at_most_one_primary.1 [galleryAsset, downloadAsset] 1 none
      sampleAssets_invariant,
   claim8_at_most_one_primary.2.1 [galleryAsset, downloadAsset] 2 none downloadAsset
      (by decide) (by decide)⟩

/-- C10: the six queries `getDashboardStats` launches in one `Promise.all`
are all reads or counts, none writes (each leaves the store untouched), and
none depends on another's result: evaluating them sequentially, each seeing
the previous one's state, gives exactly the parallel evaluation against the
initial state. -/
theorem claim10_dashboard_parallel_reads :
    getDashboardStatsQueries.length = 6
    ∧ (∀ q ∈ getDashboardStatsQueries, q.act.isWrite = false)
    ∧ (∀ (s : TableState) q, q ∈ getDashboardStatsQueries → (evalQuery q s).2 = s)
    ∧ (∀ s : TableState,
        runSequential getDashboardStatsQueries s
          = (runParallel getDashboardStatsQueries s, s)) := by
  refine ⟨rfl, ?_, ?_, fun s => rfl⟩
  · intro q hq
    fin_cases hq <;> rfl
  · intro s q hq
    fin_cases hq <;> rfl

/-- Witness for C10: the first dashboard query, evaluated on a concrete
store, does not change it. -/
theorem claim10_dashboard_parallel_reads_witness :
    ({ table := "products", act := QAct.countRows } : Query).act.isWrite = false
    ∧ (evalQuery { table := "products", act := QAct.countRows }
        (fun _ => ([] : List Json))).2 = (fun _ => ([] : List Json)) :=
  ⟨claim10_dashboard_parallel_reads.2.1 _ (List.mem_cons_self _ _),
   claim10_dashboard_parallel_reads.2.2.1 (fun _ => ([] : List Json)) _
     (List.mem_cons_self _ _)⟩

end GALUR
